import Mathlib

/-!
Shallow embedding of the EgoLift training tracker's load-math, reaction-engine
and milestone-detection logic (src/lib/calculations.ts, src/lib/personality.ts,
src/lib/friends.ts), together with theorems settling the specification claims.

Modelling conventions:
* JavaScript `number` values are modelled as exact rationals (`ℚ`); fields the
  program only ever uses as integers (week/day numbers, streak counts, reaction
  limits) are modelled as `Int`.
* `Math.round x` is `⌊x + 1/2⌋` (round half toward positive infinity).
* Nullable fields are `Option`; a JS truthiness test on a number is
  "is some and nonzero".
* ISO date strings fed to `new Date` are modelled as civil dates; `getTime()`
  of an ISO date is UTC midnight, i.e. epoch-days × 86400000 ms.
-/

/- ── Data model (src/lib/types.ts) ─────────────────────────────────────── -/

inductive UnitType
  | lbs
  | kg
deriving DecidableEq

inductive PersonalityMode
  | dryCoach
  | unhingedSpotter
  | supportiveDisappointed
  | silent
deriving DecidableEq

structure SetLog where
  setIndex : Int
  weight : Option ℚ
  weightUnit : UnitType
  reps : Option ℚ
  rpe : Option ℚ
  completed : Bool
deriving DecidableEq

structure ExerciseLogEntry where
  id : String
  prescriptionId : Option String
  exerciseName : String
  skipped : Bool
  sets : List SetLog
  notes : String
deriving DecidableEq

structure WorkoutLog where
  id : String
  date : String
  weekNumber : Int
  dayNumber : Int
  dayLabel : String
  notes : String
  startedAt : String
  completedAt : Option String
  entries : List ExerciseLogEntry
deriving DecidableEq

structure TrainingMaxes where
  squat : ℚ
  bench : ℚ
  deadlift : ℚ
deriving DecidableEq

structure UserSettings where
  id : String
  units : UnitType
  roundingIncrement : ℚ
  trainingMaxes : TrainingMaxes
  onboardingComplete : Bool
  personalityMode : PersonalityMode
  reactionsEnabled : Bool
  missedWorkoutReminders : Bool
  streaksEnabled : Bool
  maxReactionsPerWorkout : Int
  disableReactionsDuringTaper : Bool
  currentStreak : Int
  lastWorkoutDate : Option String
deriving DecidableEq

/- ── Load math (src/lib/calculations.ts) ───────────────────────────────── -/

/-- JavaScript `Math.round`: round half toward positive infinity. -/
def jsRound (x : ℚ) : Int := ⌊x + 1 / 2⌋

def LBS_TO_KG : ℚ := 45359237 / 100000000

def KG_TO_LBS : ℚ := 1 / LBS_TO_KG

/-- `roundToIncrement(value, increment)` from calculations.ts:
`Math.round(value / increment) * increment`, with `increment === 0`
returning `value` unchanged. -/
def roundToIncrement (value increment : ℚ) : ℚ :=
  if increment = 0 then value
  else (jsRound (value / increment) : ℚ) * increment

/-- `convertWeight(value, from, to)` from calculations.ts. -/
def convertWeight (value : ℚ) (source target : UnitType) : ℚ :=
  if source = target then value
  else if source = UnitType.lbs then value * LBS_TO_KG
  else value * KG_TO_LBS

structure LoadResult where
  rounded : ℚ
  exact : ℚ
deriving DecidableEq

/-- `computeLoad(trainingMaxLbs, percent, roundingIncrement, displayUnits)`
from calculations.ts. -/
def computeLoad (trainingMaxLbs percent roundingIncrement : ℚ)
    (displayUnits : UnitType) : LoadResult :=
  let tmInDisplayUnits :=
    if displayUnits = UnitType.lbs then trainingMaxLbs
    else convertWeight trainingMaxLbs UnitType.lbs UnitType.kg
  let exact := tmInDisplayUnits * percent
  let rounded := roundToIncrement exact roundingIncrement
  ⟨rounded, exact⟩

/-- `estimateE1RM(weight, reps)` from calculations.ts (Epley formula with the
`reps <= 0` and `reps === 1` special cases). -/
def estimateE1RM (weight reps : ℚ) : ℚ :=
  if reps ≤ 0 then 0
  else if reps = 1 then weight
  else weight * (1 + reps / 30)

/-- `weightFromE1RM(e1rm, percent, roundingIncrement)` from calculations.ts. -/
def weightFromE1RM (e1rm percent roundingIncrement : ℚ) : LoadResult :=
  let exact := e1rm * percent
  let rounded := roundToIncrement exact roundingIncrement
  ⟨rounded, exact⟩

/- ── Reaction engine (src/lib/personality.ts) ──────────────────────────── -/

inductive TriggerType
  | prWeight
  | prE1rm
  | prRep
  | beatPrevious
  | rpeDrop
  | rpeSandbagging
  | grindComplete
  | missedReps
  | skippedAccessories
  | deloadCompliance
  | phaseMessage
  | streak
  | missedWorkout
deriving DecidableEq

inductive ProgramPhase
  | accumulation
  | intensification
  | peaking
  | competitionPrep
  | taper
deriving DecidableEq

inductive ReactionCategory
  | PR
  | PERFORMANCE
  | PHASE
  | STREAK
  | NUDGE
  | OBSERVATION
deriving DecidableEq

structure Reaction where
  triggerType : TriggerType
  message : String
  category : ReactionCategory
  priority : Int
deriving DecidableEq

/-- `getProgramPhase(weekNumber)` from personality.ts. -/
def getProgramPhase (weekNumber : Int) : ProgramPhase :=
  if weekNumber ≤ 4 then ProgramPhase.accumulation
  else if weekNumber ≤ 8 then ProgramPhase.intensification
  else if weekNumber ≤ 11 then ProgramPhase.peaking
  else if weekNumber ≤ 15 then ProgramPhase.competitionPrep
  else ProgramPhase.taper

/-- Determinization of `getMessageForMode(MESSAGES[t], mode)`: the source picks
a uniformly random phrasing from a fixed per-(trigger, mode) array of
non-empty strings and returns `""` for silent mode.  The chosen text is opaque
data for every claim (no claim constrains message wording), so the random pick
is modelled as a deterministic non-empty placeholder per trigger. -/
def getMessage (t : TriggerType) (mode : PersonalityMode) : String :=
  if mode = PersonalityMode.silent then ""
  else
    match t with
    | TriggerType.prWeight => "msg pr weight"
    | TriggerType.prE1rm => "msg pr e1rm"
    | TriggerType.prRep => "msg pr rep"
    | TriggerType.beatPrevious => "msg beat previous"
    | TriggerType.rpeDrop => "msg rpe drop"
    | TriggerType.rpeSandbagging => "msg rpe sandbagging"
    | TriggerType.grindComplete => "msg grind complete"
    | TriggerType.missedReps => "msg missed reps"
    | TriggerType.skippedAccessories => "msg skipped accessories"
    | TriggerType.deloadCompliance => "msg deload compliance"
    | TriggerType.phaseMessage => "msg phase"
    | TriggerType.streak => "msg streak"
    | TriggerType.missedWorkout => "msg missed workout"

/-- Determinization of `getMessageForMode(PHASE_MESSAGES[phase], mode)`.  Every
`PHASE_MESSAGES` array in the source holds only non-empty strings, so for a
non-silent mode the chosen phase message is always a non-empty string; the
random pick is modelled as a deterministic non-empty placeholder per phase. -/
def getPhaseMessage (p : ProgramPhase) (mode : PersonalityMode) : String :=
  if mode = PersonalityMode.silent then ""
  else
    match p with
    | ProgramPhase.accumulation => "msg phase accumulation"
    | ProgramPhase.intensification => "msg phase intensification"
    | ProgramPhase.peaking => "msg phase peaking"
    | ProgramPhase.competitionPrep => "msg phase competition prep"
    | ProgramPhase.taper => "msg phase taper"

/- Substring search over character lists, modelling JS `String.includes`. -/

def isPrefixOfB : List Char → List Char → Bool
  | [], _ => true
  | _ :: _, [] => false
  | a :: as, b :: bs => a = b && isPrefixOfB as bs

def isInfixB (sub : List Char) : List Char → Bool
  | [] => isPrefixOfB sub []
  | b :: bs => isPrefixOfB sub (b :: bs) || isInfixB sub bs

/-- JS `String.prototype.toLowerCase` restricted to ASCII (all exercise-name
keywords in the source are ASCII), acting on the character list. -/
def lowerChar (c : Char) : Char :=
  if 'A' ≤ c ∧ c ≤ 'Z' then Char.ofNat (c.toNat + 32) else c

def toLowerList (s : String) : List Char := s.data.map lowerChar

/-- `name.includes(kw)` where `name` is the lowercased exercise name. -/
def includesLower (s kw : String) : Bool := isInfixB kw.data (toLowerList s)

/-- `MAIN_LIFT_KEYWORDS` from personality.ts. -/
def MAIN_LIFT_KEYWORDS : List String :=
  ["competition squat", "competition pause bench", "competition deadlift",
   "paused bench", "squat", "bench", "deadlift", "sldl", "close grip",
   "2ct pause", "3ct pause", "pin squat", "pin bench"]

/-- `isAccessory(exerciseName)` from personality.ts. -/
def isAccessory (exerciseName : String) : Bool :=
  !(MAIN_LIFT_KEYWORDS.any fun kw => includesLower exerciseName kw)

/-- `getBestPreviousWeight(exerciseName, currentLogId, allLogs)` from
personality.ts.  friends.ts inlines an identical loop in its weight-PR
detection; both are modelled by this one definition. -/
def getBestPreviousWeight (exerciseName currentLogId : String)
    (allLogs : List WorkoutLog) : Option ℚ :=
  allLogs.foldl
    (fun best log =>
      if log.id = currentLogId then best
      else if log.completedAt.isNone then best
      else
        log.entries.foldl
          (fun best entry =>
            if entry.exerciseName ≠ exerciseName ∨ entry.skipped then best
            else
              entry.sets.foldl
                (fun best s =>
                  match s.weight with
                  | some w =>
                    if s.completed then
                      match best with
                      | none => some w
                      | some b => if w > b then some w else some b
                    else best
                  | none => best)
                best)
          best)
    none

/-- `getBestPreviousE1RM(exerciseName, currentLogId, allLogs)` from
personality.ts (with JS truthiness on `set.weight` and `set.reps`: a zero
weight or zero reps is excluded).  friends.ts inlines an identical loop. -/
def getBestPreviousE1RM (exerciseName currentLogId : String)
    (allLogs : List WorkoutLog) : Option ℚ :=
  allLogs.foldl
    (fun best log =>
      if log.id = currentLogId then best
      else if log.completedAt.isNone then best
      else
        log.entries.foldl
          (fun best entry =>
            if entry.exerciseName ≠ exerciseName ∨ entry.skipped then best
            else
              entry.sets.foldl
                (fun best s =>
                  match s.weight, s.reps with
                  | some w, some r =>
                    if s.completed ∧ w ≠ 0 ∧ r ≠ 0 ∧ r > 0 then
                      let e1rm := estimateE1RM w r
                      match best with
                      | none => some e1rm
                      | some b => if e1rm > b then some e1rm else some b
                    else best
                  | _, _ => best)
                best)
          best)
    none

/-- `getBestPreviousReps(exerciseName, weight, currentLogId, allLogs)` from
personality.ts. -/
def getBestPreviousReps (exerciseName : String) (weight : ℚ)
    (currentLogId : String) (allLogs : List WorkoutLog) : Option ℚ :=
  allLogs.foldl
    (fun best log =>
      if log.id = currentLogId then best
      else if log.completedAt.isNone then best
      else
        log.entries.foldl
          (fun best entry =>
            if entry.exerciseName ≠ exerciseName ∨ entry.skipped then best
            else
              entry.sets.foldl
                (fun best s =>
                  match s.reps with
                  | some r =>
                    if s.completed ∧ s.weight = some weight then
                      match best with
                      | none => some r
                      | some b => if r > b then some r else some b
                    else best
                  | none => best)
                best)
          best)
    none

/-- `getLastRPEForExercise(exerciseName, weight, currentLogId, allLogs)` from
personality.ts: the first matching RPE in iteration order is returned. -/
def getLastRPEForExercise (exerciseName : String) (weight : ℚ)
    (currentLogId : String) (allLogs : List WorkoutLog) : Option ℚ :=
  allLogs.findSome? fun log =>
    if log.id = currentLogId then none
    else if log.completedAt.isNone then none
    else
      log.entries.findSome? fun entry =>
        if entry.exerciseName ≠ exerciseName ∨ entry.skipped then none
        else
          entry.sets.findSome? fun s =>
            match s.rpe, s.weight with
            | some rpe, some w =>
              if s.completed ∧ |w - weight| ≤ 5 then some rpe else none
            | _, _ => none

/- Named extractions of per-entry quantities computed inside the main loop of
`evaluateReactions` (and duplicated verbatim inside
`detectAndPublishMilestones` in friends.ts). -/

/-- `set.weight!` on a set known to have a non-null weight. -/
def wt (s : SetLog) : ℚ := s.weight.getD 0

/-- `(set.reps || 0)`. -/
def reps0 (s : SetLog) : ℚ := s.reps.getD 0

/-- `entry.sets.filter(s => s.completed && s.weight !== null)`. -/
def completedSetsOf (entry : ExerciseLogEntry) : List SetLog :=
  entry.sets.filter fun s => s.completed && s.weight.isSome

/-- `Math.max(...completedSets.map(s => s.weight!))`, `none` when the entry has
no completed weighted set. -/
def sessionBestWeight (entry : ExerciseLogEntry) : Option ℚ :=
  match completedSetsOf entry with
  | [] => none
  | s0 :: rest => some (rest.foldl (fun m s => max m (wt s)) (wt s0))

/-- `completedSets.reduce(...)`: highest weight, ties broken by higher reps. -/
def sessionBestSet (entry : ExerciseLogEntry) : Option SetLog :=
  match completedSetsOf entry with
  | [] => none
  | s0 :: rest =>
    some (rest.foldl
      (fun best s =>
        if wt s > wt best ∨ (s.weight = best.weight ∧ reps0 s > reps0 best)
        then s else best)
      s0)

/-- The lift-selection if-chain of the RPE-sandbagging heuristic in
`evaluateReactions`: substring match of squat, then bench, then deadlift
against the lowercased exercise name. -/
def liftTrainingMax (exerciseName : String) (tms : TrainingMaxes) : Option ℚ :=
  if includesLower exerciseName "squat" then some tms.squat
  else if includesLower exerciseName "bench" then some tms.bench
  else if includesLower exerciseName "deadlift" then some tms.deadlift
  else none

/- The per-entry trigger scan of `evaluateReactions` (personality.ts lines
536-637) consists of six sequential blocks, modelled as one definition per
block; `entryReactions` concatenates them in push order.  The dead
`beat-previous` block in the source emits nothing and has no model. -/

/-- Weight-PR block (`// PR: Weight`). -/
def weightPRBlock (mode : PersonalityMode) (exerciseName currentLogId : String)
    (allLogs : List WorkoutLog) (bestWeight : ℚ) : List Reaction :=
  match getBestPreviousWeight exerciseName currentLogId allLogs with
  | some prev =>
    if bestWeight > prev then
      [⟨TriggerType.prWeight, getMessage TriggerType.prWeight mode,
        ReactionCategory.PR, 100⟩]
    else []
  | none => []

/-- E1RM-PR block (`// PR: E1RM`), with JS truthiness on `bestSet.weight` and
`bestSet.reps`. -/
def e1rmPRBlock (mode : PersonalityMode) (exerciseName currentLogId : String)
    (allLogs : List WorkoutLog) (bestSet : SetLog) : List Reaction :=
  match bestSet.weight, bestSet.reps with
  | some w, some r =>
    if w ≠ 0 ∧ r ≠ 0 ∧ r > 0 then
      let currentE1RM := estimateE1RM w r
      match getBestPreviousE1RM exerciseName currentLogId allLogs with
      | some prev =>
        if currentE1RM > prev then
          [⟨TriggerType.prE1rm, getMessage TriggerType.prE1rm mode,
            ReactionCategory.PR, 95⟩]
        else []
      | none => []
    else []
  | _, _ => []

/-- Rep-PR block (`// PR: Rep at weight`). -/
def repPRBlock (mode : PersonalityMode) (exerciseName currentLogId : String)
    (allLogs : List WorkoutLog) (bestSet : SetLog) : List Reaction :=
  match bestSet.weight, bestSet.reps with
  | some w, some r =>
    if w ≠ 0 ∧ r ≠ 0 then
      match getBestPreviousReps exerciseName w currentLogId allLogs with
      | some prev =>
        if r > prev then
          [⟨TriggerType.prRep, getMessage TriggerType.prRep mode,
            ReactionCategory.PR, 90⟩]
        else []
      | none => []
    else []
  | _, _ => []

/-- RPE-drop block (`// RPE Drop`). -/
def rpeDropBlock (mode : PersonalityMode) (exerciseName currentLogId : String)
    (allLogs : List WorkoutLog) (bestSet : SetLog) : List Reaction :=
  match bestSet.rpe, bestSet.weight with
  | some rpe, some w =>
    match getLastRPEForExercise exerciseName w currentLogId allLogs with
    | some lastRPE =>
      if rpe < lastRPE then
        [⟨TriggerType.rpeDrop, getMessage TriggerType.rpeDrop mode,
          ReactionCategory.PERFORMANCE, 70⟩]
      else []
    | none => []
  | _, _ => []

/-- RPE-sandbagging block (`// RPE Sandbagging`).  `if (tmLbs)` is JS
truthiness: a zero (or absent) training max skips the check. -/
def sandbagBlock (mode : PersonalityMode) (units : UnitType) (tms : TrainingMaxes)
    (exerciseName : String) (bestSet : SetLog) : List Reaction :=
  match bestSet.rpe, bestSet.weight with
  | some rpe, some w =>
    if rpe ≥ 8 then
      match liftTrainingMax exerciseName tms with
      | some tmLbs =>
        if tmLbs ≠ 0 then
          let tm := if units = UnitType.lbs then tmLbs else tmLbs * LBS_TO_KG
          let pctOfTM := w / tm
          if pctOfTM < 65 / 100 ∧ rpe ≥ 8 then
            [⟨TriggerType.rpeSandbagging, getMessage TriggerType.rpeSandbagging mode,
              ReactionCategory.OBSERVATION, 50⟩]
          else []
        else []
      | none => []
    else []
  | _, _ => []

/-- Grind-complete block (`// Grind Complete`). -/
def grindBlock (mode : PersonalityMode) (bestSet : SetLog) : List Reaction :=
  match bestSet.rpe with
  | some rpe =>
    if rpe ≥ 19 / 2 then
      [⟨TriggerType.grindComplete, getMessage TriggerType.grindComplete mode,
        ReactionCategory.PERFORMANCE, 60⟩]
    else []
  | none => []

/-- One iteration of the per-entry trigger scan of `evaluateReactions`. -/
def entryReactions (settings : UserSettings) (currentLogId : String)
    (allLogs : List WorkoutLog) (entry : ExerciseLogEntry) : List Reaction :=
  let mode := settings.personalityMode
  if entry.skipped then []
  else
    match sessionBestWeight entry, sessionBestSet entry with
    | some bestWeight, some bestSet =>
      weightPRBlock mode entry.exerciseName currentLogId allLogs bestWeight ++
      e1rmPRBlock mode entry.exerciseName currentLogId allLogs bestSet ++
      repPRBlock mode entry.exerciseName currentLogId allLogs bestSet ++
      rpeDropBlock mode entry.exerciseName currentLogId allLogs bestSet ++
      sandbagBlock mode settings.units settings.trainingMaxes entry.exerciseName bestSet ++
      grindBlock mode bestSet
    | _, _ => []

/-- All reactions pushed by `evaluateReactions` before the final sort and
truncation: the per-entry scan, then the skipped-accessories check, then the
phase-flavor message. -/
def emittedReactions (currentLog : WorkoutLog) (allLogs : List WorkoutLog)
    (settings : UserSettings) : List Reaction :=
  let mode := settings.personalityMode
  let perEntry :=
    (currentLog.entries.map (entryReactions settings currentLog.id allLogs)).flatten
  let skippedAccessories :=
    currentLog.entries.filter fun e => e.skipped && isAccessory e.exerciseName
  let skippedPart : List Reaction :=
    if skippedAccessories.length > 0 then
      [⟨TriggerType.skippedAccessories, getMessage TriggerType.skippedAccessories mode,
        ReactionCategory.OBSERVATION, 30⟩]
    else []
  let phaseMsg := getPhaseMessage (getProgramPhase currentLog.weekNumber) mode
  let phasePart : List Reaction :=
    if phaseMsg ≠ "" then
      [⟨TriggerType.phaseMessage, phaseMsg, ReactionCategory.PHASE, 10⟩]
    else []
  perEntry ++ skippedPart ++ phasePart

def insertReaction (a : Reaction) : List Reaction → List Reaction
  | [] => [a]
  | b :: l => if a.priority > b.priority then a :: b :: l else b :: insertReaction a l

/-- Stable descending insertion sort by priority.  JS `Array.prototype.sort`
is stable and is called with the comparator `(a, b) => b.priority - a.priority`;
both therefore produce the unique stable descending-by-priority permutation. -/
def sortReactions (l : List Reaction) : List Reaction :=
  l.foldl (fun acc a => insertReaction a acc) []

/-- `arr.slice(0, stop)`: a negative `stop` counts from the end. -/
def jsSlice0 {α : Type} (stop : Int) (l : List α) : List α :=
  if stop < 0 then l.take ((l.length : Int) + stop).toNat else l.take stop.toNat

/-- `evaluateReactions(currentLog, allLogs, settings)` from personality.ts. -/
def evaluateReactions (currentLog : WorkoutLog) (allLogs : List WorkoutLog)
    (settings : UserSettings) : List Reaction :=
  if !settings.reactionsEnabled then []
  else if settings.personalityMode = PersonalityMode.silent then []
  else if settings.disableReactionsDuringTaper ∧ currentLog.weekNumber = 16 then []
  else
    jsSlice0 settings.maxReactionsPerWorkout
      (sortReactions (emittedReactions currentLog allLogs settings))

/- ── Streak calculation (src/lib/personality.ts) ───────────────────────── -/

structure CivilDate where
  year : Int
  month : Int
  day : Int
deriving DecidableEq

/-- Days since 1970-01-01 in the proleptic Gregorian calendar — the civil-date
arithmetic of ECMAScript `Date.UTC`; models `new Date(s)` for an ISO
`YYYY-MM-DD` string, which parses to UTC midnight of that day. -/
def epochDays (d : CivilDate) : Int :=
  let y := if d.month ≤ 2 then d.year - 1 else d.year
  let era := Int.fdiv y 400
  let yoe := y - era * 400
  let mp := if d.month > 2 then d.month - 3 else d.month + 9
  let doy := Int.fdiv (153 * mp + 2) 5 + d.day - 1
  let doe := yoe * 365 + Int.fdiv yoe 4 - Int.fdiv yoe 100 + doy
  era * 146097 + doe - 719468

/-- `new Date(isoDate).getTime()` in milliseconds. -/
def epochMs (d : CivilDate) : Int := epochDays d * 86400000

/-- `calculateStreak(lastWorkoutDate, today, currentStreak)` from
personality.ts; `Math.floor` of the real millisecond quotient is `Int.fdiv`. -/
def calculateStreak (lastWorkoutDate : Option CivilDate) (today : CivilDate)
    (currentStreak : Int) : Int :=
  match lastWorkoutDate with
  | none => 1
  | some last =>
    let diffDays := Int.fdiv (epochMs today - epochMs last) 86400000
    if diffDays = 0 then currentStreak
    else if diffDays ≤ 3 then currentStreak + 1
    else 1


/- ── Milestone detector (src/lib/friends.ts) ───────────────────────────── -/

inductive MilestoneType
  | prWeight
  | prE1rm
  | streak3
  | streak7
  | streak14
  | streak30
  | streak50
  | phaseComplete
  | programWeek
  | firstWorkout
deriving DecidableEq

structure Milestone where
  id : String
  uid : String
  displayName : String
  photoURL : Option String
  type : MilestoneType
  title : String
  description : String
  value : Option ℚ
  unit : Option String
  exerciseName : Option String
  createdAt : String
  celebrationCount : Int
deriving DecidableEq

def unitStr : UnitType → String
  | UnitType.lbs => "lbs"
  | UnitType.kg => "kg"

/-- The `{ count, type }` table of the streak-milestone section of
`detectAndPublishMilestones`. -/
def streakTargets : List (Int × MilestoneType) :=
  [(3, MilestoneType.streak3), (7, MilestoneType.streak7),
   (14, MilestoneType.streak14), (30, MilestoneType.streak30),
   (50, MilestoneType.streak50)]

/-- The distinct-day count of the program-week-complete section:
`new Set(allLogs.filter(l => l.weekNumber === currentLog.weekNumber &&
l.completedAt).map(l => l.dayNumber)).size`. -/
def weekCompleteDayCount (currentLog : WorkoutLog) (allLogs : List WorkoutLog) : Nat :=
  ((allLogs.filter fun l =>
      decide (l.weekNumber = currentLog.weekNumber) && l.completedAt.isSome).map
    (fun l => l.dayNumber)).dedup.length

/-- The duplicate-detection query of the program-week-complete section:
whether a milestone with this `(uid, type, value)` already exists in the
remote store (modelled as the list of previously published milestones). -/
def programWeekDup (uid : String) (weekNumber : Int)
    (existingMilestones : List Milestone) : Bool :=
  !(existingMilestones.filter fun m =>
      decide (m.uid = uid) && decide (m.type = MilestoneType.programWeek) &&
      decide (m.value = some (weekNumber : ℚ))).isEmpty

/- The PR-detection loop of `detectAndPublishMilestones` (friends.ts
`// 2. PR Detection`) performs a weight-PR check then an E1RM-PR check per
entry; its inline `prevBest` / `prevBestE1RM` loops are the same loops as
`getBestPreviousWeight` / `getBestPreviousE1RM` in personality.ts. -/

/-- The weight-PR check of the PR-detection loop. -/
def weightPRMilestoneBlock (uid displayName : String) (photoURL : Option String)
    (units : UnitType) (currentLogId : String) (allLogs : List WorkoutLog)
    (newId now : String) (exerciseName : String) (bestWeight : ℚ) : List Milestone :=
  match getBestPreviousWeight exerciseName currentLogId allLogs with
  | some prevBest =>
    if bestWeight > prevBest then
      [{ id := newId, uid := uid, displayName := displayName,
         photoURL := photoURL, type := MilestoneType.prWeight,
         title := "🏆 New " ++ exerciseName ++ " PR!",
         description := "Hit " ++ toString bestWeight ++ " " ++ unitStr units
           ++ " on " ++ exerciseName,
         value := some bestWeight, unit := some (unitStr units),
         exerciseName := some exerciseName,
         createdAt := now, celebrationCount := 0 }]
    else []
  | none => []

/-- The E1RM-PR check of the PR-detection loop. -/
def e1rmPRMilestoneBlock (uid displayName : String) (photoURL : Option String)
    (units : UnitType) (currentLogId : String) (allLogs : List WorkoutLog)
    (newId now : String) (exerciseName : String) (bestSet : SetLog) : List Milestone :=
  match bestSet.weight, bestSet.reps with
  | some w, some r =>
    if w ≠ 0 ∧ r ≠ 0 ∧ r > 0 then
      let currentE1RM := estimateE1RM w r
      match getBestPreviousE1RM exerciseName currentLogId allLogs with
      | some prevBest =>
        if currentE1RM > prevBest then
          [{ id := newId, uid := uid, displayName := displayName,
             photoURL := photoURL, type := MilestoneType.prE1rm,
             title := "📈 New " ++ exerciseName ++ " E1RM!",
             description := "Estimated 1RM now "
               ++ toString (jsRound currentE1RM) ++ " " ++ unitStr units,
             value := some ((jsRound currentE1RM : Int) : ℚ),
             unit := some (unitStr units),
             exerciseName := some exerciseName,
             createdAt := now, celebrationCount := 0 }]
        else []
      | none => []
    else []
  | _, _ => []

def entryPRMilestones (uid displayName : String) (photoURL : Option String)
    (units : UnitType) (currentLogId : String) (allLogs : List WorkoutLog)
    (newId now : String) (entry : ExerciseLogEntry) : List Milestone :=
  if entry.skipped then []
  else
    match sessionBestWeight entry, sessionBestSet entry with
    | some bestWeight, some bestSet =>
      weightPRMilestoneBlock uid displayName photoURL units currentLogId allLogs
        newId now entry.exerciseName bestWeight ++
      e1rmPRMilestoneBlock uid displayName photoURL units currentLogId allLogs
        newId now entry.exerciseName bestSet
    | _, _ => []

/-- Streak-milestone type discriminator. -/
def isStreakType : MilestoneType → Bool
  | MilestoneType.streak3 => true
  | MilestoneType.streak7 => true
  | MilestoneType.streak14 => true
  | MilestoneType.streak30 => true
  | MilestoneType.streak50 => true
  | _ => false

/-- `detectAndPublishMilestones(uid, displayName, photoURL, currentLog,
allLogs, settings)` from friends.ts, returning the list of published
milestones.  The asynchronous store interactions are made explicit:
`existingMilestones` is the store state seen by the program-week
duplicate-detection query, and `newId`/`now` stand for the generated document
ids and `new Date().toISOString()` timestamps (opaque to every claim). -/
def detectAndPublishMilestones (uid displayName : String) (photoURL : Option String)
    (currentLog : WorkoutLog) (allLogs : List WorkoutLog) (settings : UserSettings)
    (existingMilestones : List Milestone) (newId now : String) : List Milestone :=
  let units := settings.units
  -- 1. First workout ever
  let firstPart : List Milestone :=
    if allLogs.length ≤ 1 then
      [{ id := newId, uid := uid, displayName := displayName, photoURL := photoURL,
         type := MilestoneType.firstWorkout, title := "🏋️ First Workout!",
         description := "Completed their first training session",
         value := none, unit := none, exerciseName := none,
         createdAt := now, celebrationCount := 0 }]
    else []
  -- 2. PR detection (weight PRs, then E1RM PRs, per entry)
  let prPart : List Milestone :=
    (currentLog.entries.map
      (entryPRMilestones uid displayName photoURL units currentLog.id allLogs
        newId now)).flatten
  -- 3. Streak milestones: plain equality against the table, no store query
  let streakPart : List Milestone :=
    (streakTargets.map fun sm =>
      if settings.currentStreak = sm.1 then
        [{ id := newId, uid := uid, displayName := displayName, photoURL := photoURL,
           type := sm.2, title := "🔥 " ++ toString sm.1 ++ "-Workout Streak!",
           description := "Maintained a " ++ toString sm.1 ++ "-session training streak",
           value := some ((sm.1 : Int) : ℚ), unit := some "workouts",
           exerciseName := none, createdAt := now, celebrationCount := 0 }]
      else []).flatten
  -- 4. Program week complete, gated by the duplicate-detection query
  let weekPart : List Milestone :=
    if weekCompleteDayCount currentLog allLogs ≥ 4 then
      if programWeekDup uid currentLog.weekNumber existingMilestones then []
      else
        [{ id := newId, uid := uid, displayName := displayName, photoURL := photoURL,
           type := MilestoneType.programWeek,
           title := "📋 Week " ++ toString currentLog.weekNumber ++ " Complete!",
           description := "Finished all training days in Week "
             ++ toString currentLog.weekNumber,
           value := some ((currentLog.weekNumber : Int) : ℚ), unit := none,
           exerciseName := none, createdAt := now, celebrationCount := 0 }]
    else []
  firstPart ++ prPart ++ streakPart ++ weekPart

/-- Modelled from the spec's words, for comparison with the code's rounding:
standard round-half-away-from-zero of a rational quotient. -/
def specRoundHalfAwayFromZero (q : ℚ) : ℤ :=
  if q < 0 then -⌊-q + 1 / 2⌋ else ⌊q + 1 / 2⌋

/- ── Unit-field erasure (for the weight-unit-blindness hyperproperty) ──── -/

/-- Replace a set's `weightUnit` by a fixed constant.  Two inputs differ only
in `weightUnit` fields exactly when their erasures are equal. -/
def eraseSet (s : SetLog) : SetLog :=
  { setIndex := s.setIndex, weight := s.weight, weightUnit := UnitType.lbs,
    reps := s.reps, rpe := s.rpe, completed := s.completed }

def eraseEntry (e : ExerciseLogEntry) : ExerciseLogEntry :=
  { id := e.id, prescriptionId := e.prescriptionId, exerciseName := e.exerciseName,
    skipped := e.skipped, sets := e.sets.map eraseSet, notes := e.notes }

def eraseLog (L : WorkoutLog) : WorkoutLog :=
  { id := L.id, date := L.date, weekNumber := L.weekNumber, dayNumber := L.dayNumber,
    dayLabel := L.dayLabel, notes := L.notes, startedAt := L.startedAt,
    completedAt := L.completedAt, entries := L.entries.map eraseEntry }

/- ── Concrete example inputs for scenario conjuncts and witnesses ──────── -/

def exSettings : UserSettings :=
  { id := "settings", units := UnitType.lbs, roundingIncrement := 5,
    trainingMaxes := ⟨315, 225, 405⟩, onboardingComplete := true,
    personalityMode := PersonalityMode.dryCoach, reactionsEnabled := true,
    missedWorkoutReminders := false, streaksEnabled := true,
    maxReactionsPerWorkout := 3, disableReactionsDuringTaper := false,
    currentStreak := 0, lastWorkoutDate := none }

/-- A completed log with no entries at all (zero completed sets). -/
def emptyLog : WorkoutLog :=
  { id := "w-empty", date := "2024-01-01", weekNumber := 1, dayNumber := 1,
    dayLabel := "Day 1", notes := "", startedAt := "", completedAt := some "t",
    entries := [] }

/- Scenario of claim C3: one exercise "Competition Squat", one completed set
of 300 × 3, prior best weight 290 (logged at 290 × 1 in a previous log). -/

def sqEntry : ExerciseLogEntry :=
  ⟨"e1", none, "Competition Squat", false,
   [⟨1, some 300, UnitType.lbs, some 3, none, true⟩], ""⟩

def sqLog : WorkoutLog :=
  { id := "w2", date := "2024-01-08", weekNumber := 5, dayNumber := 1,
    dayLabel := "Day 1", notes := "", startedAt := "", completedAt := some "t2",
    entries := [sqEntry] }

def sqHistLog : WorkoutLog :=
  { id := "w1", date := "2024-01-01", weekNumber := 4, dayNumber := 1,
    dayLabel := "Day 1", notes := "", startedAt := "", completedAt := some "t1",
    entries := [⟨"e0", none, "Competition Squat", false,
      [⟨1, some 290, UnitType.lbs, some 1, none, true⟩], ""⟩] }

/- Scenario of claim C4: a weight PR plus the phase message with
maxReactionsPerWorkout = 1, and a two-exercise double weight PR. -/

def c4Settings : UserSettings := { exSettings with maxReactionsPerWorkout := 1 }

def c4Log : WorkoutLog :=
  { id := "w4", date := "2024-01-08", weekNumber := 1, dayNumber := 1,
    dayLabel := "Day 1", notes := "", startedAt := "", completedAt := some "t",
    entries := [⟨"e1", none, "Leg Press", false,
      [⟨1, some 300, UnitType.lbs, none, none, true⟩], ""⟩] }

def c4HistLog : WorkoutLog :=
  { id := "w3", date := "2024-01-01", weekNumber := 1, dayNumber := 1,
    dayLabel := "Day 1", notes := "", startedAt := "", completedAt := some "t",
    entries := [⟨"e0", none, "Leg Press", false,
      [⟨1, some 290, UnitType.lbs, none, none, true⟩], ""⟩] }

def c4bSettings : UserSettings := { exSettings with maxReactionsPerWorkout := 5 }

def c4bLog : WorkoutLog :=
  { id := "w6", date := "2024-01-08", weekNumber := 1, dayNumber := 1,
    dayLabel := "Day 1", notes := "", startedAt := "", completedAt := some "t",
    entries := [⟨"e1", none, "Leg Press", false,
        [⟨1, some 300, UnitType.lbs, none, none, true⟩], ""⟩,
      ⟨"e2", none, "Seated Row", false,
        [⟨1, some 200, UnitType.lbs, none, none, true⟩], ""⟩] }

def c4bHistLog : WorkoutLog :=
  { id := "w5", date := "2024-01-01", weekNumber := 1, dayNumber := 1,
    dayLabel := "Day 1", notes := "", startedAt := "", completedAt := some "t",
    entries := [⟨"e0", none, "Leg Press", false,
        [⟨1, some 290, UnitType.lbs, none, none, true⟩], ""⟩,
      ⟨"e3", none, "Seated Row", false,
        [⟨1, some 190, UnitType.lbs, none, none, true⟩], ""⟩] }

/- Counterexample input of claim C8: squat training max 0 (JS-falsy), best
set of weight −10 at RPE 8; the claim's trigger condition holds but the
`if (tmLbs)` guard skips the reaction. -/

def c8Settings : UserSettings := { exSettings with trainingMaxes := ⟨0, 225, 405⟩ }

def c8Log : WorkoutLog :=
  { id := "w8", date := "2024-01-08", weekNumber := 1, dayNumber := 1,
    dayLabel := "Day 1", notes := "", startedAt := "", completedAt := some "t",
    entries := [⟨"e1", none, "squat", false,
      [⟨1, some (-10), UnitType.lbs, some 5, some 8, true⟩], ""⟩] }

/-- A sandbagging scenario that does fire: squat at 100 (below 65% of the
315 training max) reported at RPE 8. -/
def c8bSet : SetLog := ⟨1, some 100, UnitType.lbs, some 5, some 8, true⟩

def c8bEntry : ExerciseLogEntry := ⟨"e1", none, "squat", false, [c8bSet], ""⟩

def c8bLog : WorkoutLog :=
  { id := "w9", date := "2024-01-08", weekNumber := 1, dayNumber := 1,
    dayLabel := "Day 1", notes := "", startedAt := "", completedAt := some "t",
    entries := [c8bEntry] }

/- Program-week scenario of claim C7: four completed logs covering days 1-4
of week 2; the duplicate-detection query decides whether the program-week
milestone is published. -/

def cwLogDay (i : Int) (nm : String) : WorkoutLog :=
  { id := nm, date := "2024-01-08", weekNumber := 2, dayNumber := i,
    dayLabel := "", notes := "", startedAt := "", completedAt := some "t",
    entries := [] }

def cwLogs : List WorkoutLog :=
  [cwLogDay 1 "d1", cwLogDay 2 "d2", cwLogDay 3 "d3", cwLogDay 4 "d4"]

def cwExistingM : Milestone :=
  { id := "m0", uid := "u", displayName := "Name", photoURL := none,
    type := MilestoneType.programWeek, title := "", description := "",
    value := some 2, unit := none, exerciseName := none, createdAt := "",
    celebrationCount := 0 }

/- Witness inputs of claim C10: the C3 scenario with every set's weightUnit
flipped to kilograms. -/

def sqEntryKg : ExerciseLogEntry :=
  ⟨"e1", none, "Competition Squat", false,
   [⟨1, some 300, UnitType.kg, some 3, none, true⟩], ""⟩

def sqLogKg : WorkoutLog :=
  { id := "w2", date := "2024-01-08", weekNumber := 5, dayNumber := 1,
    dayLabel := "Day 1", notes := "", startedAt := "", completedAt := some "t2",
    entries := [sqEntryKg] }

def sqHistLogKg : WorkoutLog :=
  { id := "w1", date := "2024-01-01", weekNumber := 4, dayNumber := 1,
    dayLabel := "Day 1", notes := "", startedAt := "", completedAt := some "t1",
    entries := [⟨"e0", none, "Competition Squat", false,
      [⟨1, some 290, UnitType.kg, some 1, none, true⟩], ""⟩] }

/- ── Shared lemmas ─────────────────────────────────────────────────────── -/

lemma jsRound_nearest (x : ℚ) (k : ℤ) : |x - (jsRound x : ℚ)| ≤ |x - (k : ℚ)| := by
  unfold jsRound
  have h1 : ((⌊x + 1 / 2⌋ : ℤ) : ℚ) ≤ x + 1 / 2 := Int.floor_le _
  have h2 : x + 1 / 2 < (⌊x + 1 / 2⌋ : ℚ) + 1 := Int.lt_floor_add_one _
  have hn : |x - ((⌊x + 1 / 2⌋ : ℤ) : ℚ)| ≤ 1 / 2 := by
    rw [abs_le]; constructor <;> linarith
  rcases eq_or_ne k ⌊x + 1 / 2⌋ with rfl | hne
  · exact le_refl _
  · have hhalf : (1 : ℚ) / 2 ≤ |x - (k : ℚ)| := by
      rcases lt_or_gt_of_ne hne with h | h
      · have hk : (k : ℚ) + 1 ≤ ((⌊x + 1 / 2⌋ : ℤ) : ℚ) := by
          exact_mod_cast Int.add_one_le_iff.mpr h
        have hle : (1 : ℚ) / 2 ≤ x - (k : ℚ) := by linarith
        exact hle.trans (le_abs_self _)
      · have hk : ((⌊x + 1 / 2⌋ : ℤ) : ℚ) + 1 ≤ (k : ℚ) := by
          exact_mod_cast Int.add_one_le_iff.mpr h
        have hle : (1 : ℚ) / 2 ≤ (k : ℚ) - x := by linarith
        calc (1 : ℚ) / 2 ≤ (k : ℚ) - x := hle
          _ ≤ |(k : ℚ) - x| := le_abs_self _
          _ = |x - (k : ℚ)| := abs_sub_comm _ _
    linarith
lemma roundToIncrement_eq (v i : ℚ) (hi : i ≠ 0) :
    roundToIncrement v i = (jsRound (v / i) : ℚ) * i := by
  simp [roundToIncrement, hi]

lemma mem_insertReaction {a b : Reaction} {l : List Reaction} :
    a ∈ insertReaction b l ↔ a = b ∨ a ∈ l := by
  induction l with
  | nil => simp [insertReaction]
  | cons c t ih =>
    by_cases h : b.priority > c.priority
    · simp only [insertReaction, if_pos h, List.mem_cons]
    · simp only [insertReaction, if_neg h, List.mem_cons, ih]
      tauto

lemma mem_sortReactions_aux {a : Reaction} (l acc : List Reaction) :
    a ∈ l.foldl (fun acc x => insertReaction x acc) acc ↔ a ∈ l ∨ a ∈ acc := by
  induction l generalizing acc with
  | nil => simp
  | cons x t ih =>
    rw [List.foldl_cons, ih, mem_insertReaction]
    simp [List.mem_cons]
    tauto

lemma mem_sortReactions {a : Reaction} {l : List Reaction} :
    a ∈ sortReactions l ↔ a ∈ l := by
  rw [sortReactions, mem_sortReactions_aux]
  simp

lemma pairwise_insertReaction {a : Reaction} {l : List Reaction}
    (h : List.Pairwise (fun x y : Reaction => y.priority ≤ x.priority) l) :
    List.Pairwise (fun x y : Reaction => y.priority ≤ x.priority)
      (insertReaction a l) := by
  induction l with
  | nil => simp [insertReaction]
  | cons b t ih =>
    rcases List.pairwise_cons.mp h with ⟨hb, ht⟩
    by_cases hab : a.priority > b.priority
    · rw [insertReaction, if_pos hab]
      refine List.pairwise_cons.mpr ⟨?_, h⟩
      intro c hc
      rcases List.mem_cons.mp hc with rfl | hc
      · omega
      · have := hb c hc; omega
    · rw [insertReaction, if_neg hab]
      refine List.pairwise_cons.mpr ⟨?_, ih ht⟩
      intro c hc
      rcases mem_insertReaction.mp hc with rfl | hc
      · omega
      · exact hb c hc

lemma pairwise_sortReactions_aux (l acc : List Reaction)
    (hacc : List.Pairwise (fun x y : Reaction => y.priority ≤ x.priority) acc) :
    List.Pairwise (fun x y : Reaction => y.priority ≤ x.priority)
      (l.foldl (fun acc x => insertReaction x acc) acc) := by
  induction l generalizing acc with
  | nil => exact hacc
  | cons x t ih => exact ih _ (pairwise_insertReaction hacc)

lemma pairwise_sortReactions (l : List Reaction) :
    List.Pairwise (fun x y : Reaction => y.priority ≤ x.priority)
      (sortReactions l) :=
  pairwise_sortReactions_aux l [] (List.Pairwise.nil)

lemma filter_insertReaction (p : Int) (a : Reaction) (l : List Reaction)
    (hl : List.Pairwise (fun x y : Reaction => y.priority ≤ x.priority) l) :
    (insertReaction a l).filter (fun r => decide (r.priority = p)) =
      if a.priority = p then
        l.filter (fun r => decide (r.priority = p)) ++ [a]
      else l.filter (fun r => decide (r.priority = p)) := by
  induction l with
  | nil =>
    by_cases hp : a.priority = p <;> simp [insertReaction, hp]
  | cons b t ih =>
    rcases List.pairwise_cons.mp hl with ⟨hb, ht⟩
    by_cases hab : a.priority > b.priority
    · rw [insertReaction, if_pos hab]
      by_cases hp : a.priority = p
      · have hnil : (b :: t).filter (fun r => decide (r.priority = p)) = [] := by
          rw [List.filter_eq_nil_iff]
          intro c hc
          rcases List.mem_cons.mp hc with rfl | hc
          · simp; omega
          · have := hb c hc; simp; omega
        rw [List.filter_cons_of_pos (by simp [hp]), hnil, if_pos hp]
        simp [hnil]
      · rw [if_neg hp, List.filter_cons_of_neg (by simp [hp])]
    · rw [insertReaction, if_neg hab]
      by_cases hbp : b.priority = p
      · rw [List.filter_cons_of_pos (by simp [hbp]),
          List.filter_cons_of_pos (by simp [hbp]), ih ht]
        by_cases hp : a.priority = p <;> simp [hp]
      · rw [List.filter_cons_of_neg (by simp [hbp]),
          List.filter_cons_of_neg (by simp [hbp]), ih ht]

lemma filter_sortReactions_aux (p : Int) (l acc : List Reaction)
    (hacc : List.Pairwise (fun x y : Reaction => y.priority ≤ x.priority) acc) :
    (l.foldl (fun acc x => insertReaction x acc) acc).filter
        (fun r => decide (r.priority = p)) =
      acc.filter (fun r => decide (r.priority = p)) ++
        l.filter (fun r => decide (r.priority = p)) := by
  induction l generalizing acc with
  | nil => simp
  | cons x t ih =>
    rw [List.foldl_cons, ih _ (pairwise_insertReaction hacc),
      filter_insertReaction p x acc hacc]
    by_cases hp : x.priority = p
    · rw [if_pos hp, List.filter_cons_of_pos (by simp [hp])]
      simp
    · rw [if_neg hp, List.filter_cons_of_neg (by simp [hp])]

/-- Stability of the reaction sort: the subsequence of reactions at any fixed
priority is unchanged by sorting. -/
lemma filter_sortReactions (p : Int) (l : List Reaction) :
    (sortReactions l).filter (fun r => decide (r.priority = p)) =
      l.filter (fun r => decide (r.priority = p)) := by
  rw [sortReactions, filter_sortReactions_aux p l [] List.Pairwise.nil]
  simp

lemma jsSlice0_subset {α : Type} (n : Int) (l : List α) : jsSlice0 n l ⊆ l := by
  unfold jsSlice0
  split_ifs <;> exact List.take_subset _ _

lemma jsSlice0_sublist {α : Type} (n : Int) (l : List α) :
    (jsSlice0 n l).Sublist l := by
  unfold jsSlice0
  split_ifs <;> exact List.take_sublist _ _

lemma length_jsSlice0_le (n : Int) (hn : 0 ≤ n) (l : List Reaction) :
    (jsSlice0 n l).length ≤ n.toNat := by
  unfold jsSlice0
  rw [if_neg (by omega)]
  simp [List.length_take]

/- Membership characterizations of the six per-entry reaction blocks. -/

lemma mem_weightPRBlock {r : Reaction} {mode n cid logs bw}
    (h : r ∈ weightPRBlock mode n cid logs bw) :
    r.triggerType = TriggerType.prWeight ∧ r.priority = 100 := by
  unfold weightPRBlock at h
  repeat first | split at h | split_ifs at h
  all_goals simp_all

lemma mem_e1rmPRBlock {r : Reaction} {mode n cid logs bs}
    (h : r ∈ e1rmPRBlock mode n cid logs bs) :
    r.triggerType = TriggerType.prE1rm ∧ r.priority = 95 := by
  unfold e1rmPRBlock at h
  dsimp only at h
  repeat first | split at h | split_ifs at h
  all_goals simp_all

lemma mem_repPRBlock {r : Reaction} {mode n cid logs bs}
    (h : r ∈ repPRBlock mode n cid logs bs) :
    r.triggerType = TriggerType.prRep ∧ r.priority = 90 := by
  unfold repPRBlock at h
  repeat first | split at h | split_ifs at h
  all_goals simp_all

lemma mem_rpeDropBlock {r : Reaction} {mode n cid logs bs}
    (h : r ∈ rpeDropBlock mode n cid logs bs) :
    r.triggerType = TriggerType.rpeDrop ∧ r.priority = 70 := by
  unfold rpeDropBlock at h
  repeat first | split at h | split_ifs at h
  all_goals simp_all

lemma mem_sandbagBlock {r : Reaction} {mode units tms n bs}
    (h : r ∈ sandbagBlock mode units tms n bs) :
    r.triggerType = TriggerType.rpeSandbagging ∧ r.priority = 50 := by
  unfold sandbagBlock at h
  dsimp only at h
  repeat first | split at h | split_ifs at h
  all_goals simp_all

lemma mem_grindBlock {r : Reaction} {mode bs}
    (h : r ∈ grindBlock mode bs) :
    r.triggerType = TriggerType.grindComplete ∧ r.priority = 60 := by
  unfold grindBlock at h
  repeat first | split at h | split_ifs at h
  all_goals simp_all

lemma mem_entryReactions {r : Reaction} {settings cid logs entry}
    (h : r ∈ entryReactions settings cid logs entry) :
    (r.triggerType = TriggerType.prWeight ∧ r.priority = 100) ∨
    (r.triggerType = TriggerType.prE1rm ∧ r.priority = 95) ∨
    (r.triggerType = TriggerType.prRep ∧ r.priority = 90) ∨
    (r.triggerType = TriggerType.rpeDrop ∧ r.priority = 70) ∨
    (r.triggerType = TriggerType.rpeSandbagging ∧ r.priority = 50) ∨
    (r.triggerType = TriggerType.grindComplete ∧ r.priority = 60) := by
  unfold entryReactions at h
  split_ifs at h with hsk
  · simp at h
  · split at h
    · rcases List.mem_append.mp h with h | h
      · rcases List.mem_append.mp h with h | h
        · rcases List.mem_append.mp h with h | h
          · rcases List.mem_append.mp h with h | h
            · rcases List.mem_append.mp h with h | h
              · exact Or.inl (mem_weightPRBlock h)
              · exact Or.inr (Or.inl (mem_e1rmPRBlock h))
            · exact Or.inr (Or.inr (Or.inl (mem_repPRBlock h)))
          · exact Or.inr (Or.inr (Or.inr (Or.inl (mem_rpeDropBlock h))))
        · exact Or.inr (Or.inr (Or.inr (Or.inr (Or.inl (mem_sandbagBlock h)))))
      · exact Or.inr (Or.inr (Or.inr (Or.inr (Or.inr (mem_grindBlock h)))))
    · simp at h

/-- Every reaction emitted by the engine has priority at most 100, and only
weight-PR reactions have priority exactly 100. -/
lemma mem_emittedReactions {r : Reaction} {L H S}
    (h : r ∈ emittedReactions L H S) :
    r.priority ≤ 100 ∧ (r.priority = 100 → r.triggerType = TriggerType.prWeight) := by
  unfold emittedReactions at h
  rcases List.mem_append.mp h with h | h
  rcases List.mem_append.mp h with h | h
  · rcases List.mem_flatten.mp h with ⟨l, hl, hr⟩
    rcases List.mem_map.mp hl with ⟨entry, _, rfl⟩
    rcases mem_entryReactions hr with ⟨ht, hp⟩ | ⟨ht, hp⟩ | ⟨ht, hp⟩ | ⟨ht, hp⟩
      | ⟨ht, hp⟩ | ⟨ht, hp⟩ <;> rw [hp] <;>
      exact ⟨by omega, fun h => by first | exact ht | omega⟩
  · split_ifs at h
    · simp only [List.mem_singleton] at h
      subst h
      exact ⟨by norm_num, fun hh => by simp at hh⟩
    · simp at h
  · split_ifs at h
    · simp only [List.mem_singleton] at h
      subst h
      exact ⟨by norm_num, fun hh => by simp at hh⟩
    · simp at h

lemma entryReactions_nil_of_no_completed {settings cid logs}
    {entry : ExerciseLogEntry}
    (h : ∀ s ∈ entry.sets, s.completed = false) :
    entryReactions settings cid logs entry = [] := by
  have hcs : completedSetsOf entry = [] := by
    rw [completedSetsOf, List.filter_eq_nil_iff]
    intro s hs
    simp [h s hs]
  unfold entryReactions
  split_ifs with hsk
  · rfl
  · rw [sessionBestWeight, sessionBestSet, hcs]

/-- For a non-short-circuited call, `evaluateReactions` is the stable
descending sort of the emitted reactions truncated by `slice(0, max)`. -/
lemma evaluateReactions_eq {L H S}
    (h1 : S.reactionsEnabled = true)
    (h2 : S.personalityMode ≠ PersonalityMode.silent)
    (h3 : ¬(S.disableReactionsDuringTaper = true ∧ L.weekNumber = 16)) :
    evaluateReactions L H S =
      jsSlice0 S.maxReactionsPerWorkout (sortReactions (emittedReactions L H S)) := by
  unfold evaluateReactions
  rw [if_neg (by simp [h1]), if_neg h2, if_neg (by simpa using h3)]

/- ── Claim theorems ────────────────────────────────────────────────────── -/

/-- Claim C2, counterexample to the claim as stated: at value −5 and
increment 10 the quotient −1/2 is exactly halfway between two integers;
rounding it half away from zero gives the multiple −10, but
`roundToIncrement(-5, 10)` (JS `Math.round`, half toward +∞) returns 0. -/
theorem claim_C2_counterexample :
    roundToIncrement (-5) 10 = 0 ∧
    (specRoundHalfAwayFromZero (-5 / 10) : ℚ) * 10 = -10 ∧
    (0 : ℚ) ≠ -10 := by
  refine ⟨?_, ?_, by norm_num⟩
  · norm_num [roundToIncrement, jsRound]
  · norm_num [specRoundHalfAwayFromZero]

/-- Claim C2 (amended): for every value and every increment ≠ 0,
`roundToIncrement(value, increment)` is `Math.round(value / increment) *
increment`: a multiple of the increment nearest to the value, a quotient
exactly halfway between two integers being rounded half toward positive
infinity (not half away from zero); and for every value,
`roundToIncrement(value, 0) = value`. -/
theorem claim_C2_roundToIncrement (v i : ℚ) :
    (i ≠ 0 →
      roundToIncrement v i = (jsRound (v / i) : ℚ) * i ∧
      (∃ k : ℤ, roundToIncrement v i = (k : ℚ) * i) ∧
      ∀ k : ℤ, |v - roundToIncrement v i| ≤ |v - (k : ℚ) * i|) ∧
    roundToIncrement v 0 = v := by
  constructor
  · intro hi
    refine ⟨roundToIncrement_eq v i hi, ⟨jsRound (v / i), roundToIncrement_eq v i hi⟩, ?_⟩
    intro k
    rw [roundToIncrement_eq v i hi]
    have hv : v = v / i * i := (div_mul_cancel₀ v hi).symm
    have e1 : v - (jsRound (v / i) : ℚ) * i = (v / i - (jsRound (v / i) : ℚ)) * i := by
      rw [sub_mul]; rw [← hv]
    have e2 : v - (k : ℚ) * i = (v / i - (k : ℚ)) * i := by
      rw [sub_mul]; rw [← hv]
    rw [e1, e2, abs_mul, abs_mul]
    exact mul_le_mul_of_nonneg_right (jsRound_nearest (v / i) k) (abs_nonneg i)
  · simp [roundToIncrement]

/-- Witness for claim C2's amended theorem at value 5, increment 10. -/
theorem claim_C2_witness :
    (10 : ℚ) ≠ 0 ∧ roundToIncrement 5 10 = (jsRound ((5 : ℚ) / 10) : ℚ) * 10 :=
  ⟨by norm_num, ((claim_C2_roundToIncrement 5 10).1 (by norm_num)).1⟩

/-- Claim C5: `estimateE1RM(w, 1) = w` exactly; `estimateE1RM(w, r) = 0` for
`r ≤ 0`; `estimateE1RM(w, r) = w * (1 + r/30)` (Epley) for `r > 1`; and
`estimateE1RM(100, 5) = 100 * (1 + 5/30) = 350/3`. -/
theorem claim_C5_estimateE1RM (w r : ℚ) :
    estimateE1RM w 1 = w ∧
    (r ≤ 0 → estimateE1RM w r = 0) ∧
    (1 < r → estimateE1RM w r = w * (1 + r / 30)) ∧
    estimateE1RM 100 5 = 100 * (1 + 5 / 30) ∧
    estimateE1RM 100 5 = 350 / 3 := by
  refine ⟨?_, ?_, ?_, by norm_num [estimateE1RM], by norm_num [estimateE1RM]⟩
  · unfold estimateE1RM
    split_ifs with h1 h2
    · linarith
    · rfl
    · exact absurd rfl h2
  · intro h; simp [estimateE1RM, h]
  · intro h
    unfold estimateE1RM
    split_ifs with h1 h2
    · linarith
    · linarith
    · rfl

/-- Witness for claim C5 at weight 100, reps 5. -/
theorem claim_C5_witness :
    (1 : ℚ) < 5 ∧ estimateE1RM 100 5 = 100 * (1 + 5 / 30) :=
  ⟨by norm_num, (claim_C5_estimateE1RM 100 5).2.2.1 (by norm_num)⟩

/-- Claim C9: `computeLoad` is a pure function whose exact component is the
training max converted from pounds to the display unit times the percent, and
whose rounded component is `roundToIncrement` of the exact value (hence a
multiple of the increment when the increment is nonzero); at
TM = 315 lbs, percent 0.67, increment 5, units lbs it returns
rounded = 210, exact = 211.05. -/
theorem claim_C9_computeLoad (tm p r : ℚ) (u : UnitType) :
    (computeLoad tm p r u).exact = convertWeight tm UnitType.lbs u * p ∧
    (computeLoad tm p r u).rounded = roundToIncrement ((computeLoad tm p r u).exact) r ∧
    (r ≠ 0 → ∃ k : ℤ, (computeLoad tm p r u).rounded = (k : ℚ) * r) ∧
    computeLoad 315 (67 / 100) 5 UnitType.lbs = ⟨210, 4221 / 20⟩ := by
  refine ⟨?_, rfl, ?_, by norm_num [computeLoad, roundToIncrement, jsRound]⟩
  · cases u <;> simp [computeLoad, convertWeight]
  · intro hr
    exact ⟨jsRound ((computeLoad tm p r u).exact / r), roundToIncrement_eq _ r hr⟩

/-- Witness for claim C9 at the spec's scenario inputs. -/
theorem claim_C9_witness :
    (5 : ℚ) ≠ 0 ∧
    ∃ k : ℤ, (computeLoad 315 (67 / 100) 5 UnitType.lbs).rounded = (k : ℚ) * 5 :=
  ⟨by norm_num, (claim_C9_computeLoad 315 (67 / 100) 5 UnitType.lbs).2.2.1 (by norm_num)⟩

/-- Claim C6: `calculateStreak` returns 1 with no previous date, the unchanged
streak at a zero day gap, streak + 1 at a gap of 1 to 3 days, and 1 at a gap
above 3 days; with the spec's scenario values. -/
theorem claim_C6_calculateStreak (last today : CivilDate) (cs : Int) :
    calculateStreak none today cs = 1 ∧
    (epochDays today - epochDays last = 0 →
      calculateStreak (some last) today cs = cs) ∧
    (1 ≤ epochDays today - epochDays last ∧ epochDays today - epochDays last ≤ 3 →
      calculateStreak (some last) today cs = cs + 1) ∧
    (3 < epochDays today - epochDays last →
      calculateStreak (some last) today cs = 1) ∧
    calculateStreak none ⟨2024, 1, 1⟩ 0 = 1 ∧
    calculateStreak (some ⟨2024, 1, 1⟩) ⟨2024, 1, 2⟩ 5 = 6 ∧
    calculateStreak (some ⟨2024, 1, 1⟩) ⟨2024, 1, 10⟩ 5 = 1 := by
  have hdiff : Int.fdiv (epochMs today - epochMs last) 86400000
      = epochDays today - epochDays last := by
    have : epochMs today - epochMs last = (epochDays today - epochDays last) * 86400000 := by
      unfold epochMs; ring
    rw [this, Int.mul_fdiv_cancel _ (by norm_num)]
  refine ⟨rfl, ?_, ?_, ?_, by decide, by decide, by decide⟩
  · intro h; simp [calculateStreak, hdiff, h]
  · intro h
    have h0 : epochDays today - epochDays last ≠ 0 := by omega
    have h3 : epochDays today - epochDays last ≤ 3 := h.2
    simp [calculateStreak, hdiff, h0, h3]
  · intro h
    have h0 : epochDays today - epochDays last ≠ 0 := by omega
    have h3 : ¬(epochDays today - epochDays last ≤ 3) := by omega
    simp [calculateStreak, hdiff, h0, h3]

/-- Witness for claim C6 at the spec's scenario dates. -/
theorem claim_C6_witness :
    (1 ≤ epochDays ⟨2024, 1, 2⟩ - epochDays ⟨2024, 1, 1⟩ ∧
      epochDays ⟨2024, 1, 2⟩ - epochDays ⟨2024, 1, 1⟩ ≤ 3) ∧
    calculateStreak (some ⟨2024, 1, 1⟩) ⟨2024, 1, 2⟩ 5 = 5 + 1 :=
  ⟨by decide, (claim_C6_calculateStreak ⟨2024, 1, 1⟩ ⟨2024, 1, 2⟩ 5).2.2.1 (by decide)⟩

/-- Claim C1, counterexample to the claim as stated: a completed log with no
entries at all (zero completed sets across all entries), with reactions
enabled and a non-silent personality, yields a non-empty reaction list — the
phase-flavor message is always appended. -/
theorem claim_C1_counterexample :
    emptyLog.entries = [] ∧ evaluateReactions emptyLog [] exSettings ≠ [] := by
  refine ⟨rfl, ?_⟩
  decide

/-- Claim C1 (amended): for a workout log with zero completed sets across all
entries, `evaluateReactions` does not throw (it is total and the per-entry
scan contributes nothing) and emits no set-derived reactions: every returned
reaction, for every settings value and log history, is the
skipped-accessories observation or the phase-flavor message; the returned
list is not empty in general. -/
theorem claim_C1_zeroCompleted (currentLog : WorkoutLog) (allLogs : List WorkoutLog)
    (settings : UserSettings)
    (h : ∀ e ∈ currentLog.entries, ∀ s ∈ e.sets, s.completed = false) :
    ∀ r ∈ evaluateReactions currentLog allLogs settings,
      r.triggerType = TriggerType.skippedAccessories ∨
      r.triggerType = TriggerType.phaseMessage := by
  intro r hr
  unfold evaluateReactions at hr
  split_ifs at hr
  · simp at hr
  · simp at hr
  · simp at hr
  · have hr2 : r ∈ emittedReactions currentLog allLogs settings :=
      mem_sortReactions.mp (jsSlice0_subset _ _ hr)
    unfold emittedReactions at hr2
    rcases List.mem_append.mp hr2 with hr3 | hr3
    rcases List.mem_append.mp hr3 with hr4 | hr4
    · rcases List.mem_flatten.mp hr4 with ⟨l, hl, hrl⟩
      rcases List.mem_map.mp hl with ⟨entry, he, rfl⟩
      rw [entryReactions_nil_of_no_completed (h entry he)] at hrl
      simp at hrl
    · split_ifs at hr4
      · simp only [List.mem_singleton] at hr4
        subst hr4
        exact Or.inl rfl
      · simp at hr4
    · split_ifs at hr3
      · simp only [List.mem_singleton] at hr3
        subst hr3
        exact Or.inr rfl
      · simp at hr3

/-- Witness for claim C1's amended theorem at the empty-entries log. -/
theorem claim_C1_witness :
    (∀ e ∈ emptyLog.entries, ∀ s ∈ e.sets, s.completed = false) ∧
    ∀ r ∈ evaluateReactions emptyLog [] exSettings,
      r.triggerType = TriggerType.skippedAccessories ∨
      r.triggerType = TriggerType.phaseMessage :=
  ⟨by simp [emptyLog],
   claim_C1_zeroCompleted emptyLog [] exSettings (by simp [emptyLog])⟩

/-- Claim C4: `evaluateReactions` returns the emitted reactions sorted by
priority descending (stable for equal priorities) and truncated to the first
`maxReactionsPerWorkout`; truncation is global across exercises; with
`maxReactionsPerWorkout = 1` and a log triggering a weight PR (priority 100)
and the phase message (priority 10), exactly the weight-PR reaction is
returned; and a workout with two qualifying exercises keeps two `pr-weight`
reactions when the limit allows. -/
theorem claim_C4_sortTruncate (L : WorkoutLog) (H : List WorkoutLog) (S : UserSettings) :
    List.Pairwise (fun a b : Reaction => b.priority ≤ a.priority)
      (evaluateReactions L H S) ∧
    (0 ≤ S.maxReactionsPerWorkout →
      (evaluateReactions L H S).length ≤ S.maxReactionsPerWorkout.toNat) ∧
    (∀ p : Int,
      (sortReactions (emittedReactions L H S)).filter
          (fun r => decide (r.priority = p)) =
        (emittedReactions L H S).filter (fun r => decide (r.priority = p))) ∧
    (evaluateReactions c4Log [c4Log, c4HistLog] c4Settings).map Reaction.triggerType =
      [TriggerType.prWeight] ∧
    (evaluateReactions c4Log [c4Log, c4HistLog] c4Settings).map Reaction.priority =
      [100] ∧
    ((evaluateReactions c4bLog [c4bLog, c4bHistLog] c4bSettings).filter
      (fun r => decide (r.triggerType = TriggerType.prWeight))).length = 2 := by
  refine ⟨?_, ?_, fun p => filter_sortReactions p _, ?_, ?_, ?_⟩
  · unfold evaluateReactions
    split_ifs
    · exact List.Pairwise.nil
    · exact List.Pairwise.nil
    · exact List.Pairwise.nil
    · exact (pairwise_sortReactions _).sublist (jsSlice0_sublist _ _)
  · intro hm
    unfold evaluateReactions
    split_ifs
    · simp
    · simp
    · simp
    · exact length_jsSlice0_le _ hm _
  · norm_num [evaluateReactions, emittedReactions, entryReactions, weightPRBlock,
      e1rmPRBlock, repPRBlock, rpeDropBlock, sandbagBlock, grindBlock,
      sessionBestWeight, sessionBestSet, completedSetsOf, getBestPreviousWeight,
      getBestPreviousE1RM, getBestPreviousReps, getLastRPEForExercise,
      liftTrainingMax, c4Log, c4HistLog, c4Settings, exSettings, wt, reps0,
      getMessage, getPhaseMessage, getProgramPhase, sortReactions, insertReaction,
      jsSlice0, List.filter, List.foldl, List.flatten, includesLower, isInfixB,
      isPrefixOfB, toLowerList, lowerChar]
    decide
  · norm_num [evaluateReactions, emittedReactions, entryReactions, weightPRBlock,
      e1rmPRBlock, repPRBlock, rpeDropBlock, sandbagBlock, grindBlock,
      sessionBestWeight, sessionBestSet, completedSetsOf, getBestPreviousWeight,
      getBestPreviousE1RM, getBestPreviousReps, getLastRPEForExercise,
      liftTrainingMax, c4Log, c4HistLog, c4Settings, exSettings, wt, reps0,
      getMessage, getPhaseMessage, getProgramPhase, sortReactions, insertReaction,
      jsSlice0, List.filter, List.foldl, List.flatten, includesLower, isInfixB,
      isPrefixOfB, toLowerList, lowerChar]
    decide
  · norm_num [evaluateReactions, emittedReactions, entryReactions, weightPRBlock,
      e1rmPRBlock, repPRBlock, rpeDropBlock, sandbagBlock, grindBlock,
      sessionBestWeight, sessionBestSet, completedSetsOf, getBestPreviousWeight,
      getBestPreviousE1RM, getBestPreviousReps, getLastRPEForExercise,
      liftTrainingMax, c4bLog, c4bHistLog, c4bSettings, exSettings, wt, reps0,
      getMessage, getPhaseMessage, getProgramPhase, sortReactions, insertReaction,
      jsSlice0, List.filter, List.foldl, List.flatten, includesLower, isInfixB,
      isPrefixOfB, toLowerList, lowerChar]
    decide

/-- Witness for claim C4's truncation bound at concrete inputs. -/
theorem claim_C4_witness :
    0 ≤ exSettings.maxReactionsPerWorkout ∧
    (evaluateReactions emptyLog [] exSettings).length ≤
      exSettings.maxReactionsPerWorkout.toNat :=
  ⟨by norm_num [exSettings],
   (claim_C4_sortTruncate emptyLog [] exSettings).2.1 (by norm_num [exSettings])⟩

lemma sessionBestSet_isSome_of_bestWeight {entry : ExerciseLogEntry} {bw : ℚ}
    (hbw : sessionBestWeight entry = some bw) :
    ∃ bs, sessionBestSet entry = some bs := by
  unfold sessionBestWeight at hbw
  unfold sessionBestSet
  cases hcs : completedSetsOf entry with
  | nil => rw [hcs] at hbw; simp at hbw
  | cons a t => exact ⟨_, rfl⟩

/-- Claim C3: for every non-skipped entry with a completed weighted set whose
session best weight strictly exceeds the best previous weight recorded for
the same exercise name across all other completed logs, a running engine
(reactions enabled, non-silent, not taper-muted, reaction limit ≥ 1) returns
a `pr-weight` reaction with priority 100, and the milestone detector
publishes a `pr-weight` milestone whose value is the session best weight; in
particular the "Competition Squat" 300 × 3 over prior best 290 scenario
yields both. -/
theorem claim_C3_weightPR
    (currentLog : WorkoutLog) (allLogs : List WorkoutLog) (settings : UserSettings)
    (uid displayName : String) (photoURL : Option String)
    (store : List Milestone) (newId now : String)
    (entry : ExerciseLogEntry) (bw prev : ℚ)
    (h1 : settings.reactionsEnabled = true)
    (h2 : settings.personalityMode ≠ PersonalityMode.silent)
    (h3 : ¬(settings.disableReactionsDuringTaper = true ∧ currentLog.weekNumber = 16))
    (h4 : 1 ≤ settings.maxReactionsPerWorkout)
    (he : entry ∈ currentLog.entries) (hsk : entry.skipped = false)
    (hbw : sessionBestWeight entry = some bw)
    (hprev : getBestPreviousWeight entry.exerciseName currentLog.id allLogs = some prev)
    (hgt : bw > prev) :
    (∃ r ∈ evaluateReactions currentLog allLogs settings,
      r.triggerType = TriggerType.prWeight ∧ r.priority = 100) ∧
    (∃ m ∈ detectAndPublishMilestones uid displayName photoURL currentLog allLogs
        settings store newId now,
      m.type = MilestoneType.prWeight ∧ m.value = some bw ∧
        m.exerciseName = some entry.exerciseName) ∧
    ((evaluateReactions sqLog [sqLog, sqHistLog] exSettings).filter
        (fun r => decide (r.triggerType = TriggerType.prWeight))).map Reaction.priority
      = [100] ∧
    ((detectAndPublishMilestones "u" "Name" none sqLog [sqLog, sqHistLog] exSettings
        [] "mid" "t").filter
        (fun m => decide (m.type = MilestoneType.prWeight))).map Milestone.value
      = [some 300] := by
  obtain ⟨bs, hbs⟩ := sessionBestSet_isSome_of_bestWeight hbw
  refine ⟨?_, ?_, ?_, ?_⟩
  rotate_right 2
  · -- scenario: reaction engine output
    norm_num [evaluateReactions, emittedReactions, entryReactions, weightPRBlock,
      e1rmPRBlock, repPRBlock, rpeDropBlock, sandbagBlock, grindBlock,
      sessionBestWeight, sessionBestSet, completedSetsOf, getBestPreviousWeight,
      getBestPreviousE1RM, getBestPreviousReps, getLastRPEForExercise,
      liftTrainingMax, sqLog, sqHistLog, sqEntry, exSettings, wt, reps0,
      estimateE1RM, getMessage, getPhaseMessage, getProgramPhase, sortReactions,
      insertReaction, jsSlice0, List.filter, List.foldl, List.flatten,
      includesLower, isInfixB, isPrefixOfB, toLowerList, lowerChar]
    decide
  · -- scenario: milestone detector output
    have hwk : weekCompleteDayCount sqLog [sqLog, sqHistLog] = 1 := by decide
    norm_num [detectAndPublishMilestones, entryPRMilestones, weightPRMilestoneBlock,
      e1rmPRMilestoneBlock, sessionBestWeight,
      sessionBestSet, completedSetsOf, getBestPreviousWeight, getBestPreviousE1RM,
      sqLog, sqHistLog, sqEntry, exSettings, wt, reps0, estimateE1RM, hwk,
      streakTargets, List.filter, List.foldl, List.flatten, unitStr]
    decide
  · -- reaction part
    have hmemE : (⟨TriggerType.prWeight,
        getMessage TriggerType.prWeight settings.personalityMode,
        ReactionCategory.PR, 100⟩ : Reaction)
        ∈ entryReactions settings currentLog.id allLogs entry := by
      unfold entryReactions
      rw [if_neg (by simp [hsk]), hbw, hbs]
      dsimp only
      apply List.mem_append_left
      apply List.mem_append_left
      apply List.mem_append_left
      apply List.mem_append_left
      apply List.mem_append_left
      unfold weightPRBlock
      rw [hprev]
      dsimp only
      rw [if_pos hgt]
      exact List.mem_singleton_self _
    have hmem : (⟨TriggerType.prWeight,
        getMessage TriggerType.prWeight settings.personalityMode,
        ReactionCategory.PR, 100⟩ : Reaction)
        ∈ emittedReactions currentLog allLogs settings := by
      unfold emittedReactions
      apply List.mem_append_left
      apply List.mem_append_left
      exact List.mem_flatten.mpr ⟨_, List.mem_map_of_mem _ he, hmemE⟩
    rw [evaluateReactions_eq h1 h2 h3]
    have hmemS := mem_sortReactions.mpr hmem
    have hsorted := pairwise_sortReactions (emittedReactions currentLog allLogs settings)
    have hback : ∀ r' : Reaction,
        r' ∈ sortReactions (emittedReactions currentLog allLogs settings) →
        r' ∈ emittedReactions currentLog allLogs settings :=
      fun r' hr' => mem_sortReactions.mp hr'
    generalize hS : sortReactions (emittedReactions currentLog allLogs settings) = sl
      at hmemS hsorted hback ⊢
    cases sl with
    | nil => simp at hmemS
    | cons hd tl =>
      have hhd : hd ∈ emittedReactions currentLog allLogs settings :=
        hback hd (List.mem_cons_self _ _)
      have hge : 100 ≤ hd.priority := by
        rcases List.mem_cons.mp hmemS with heq | hm
        · rw [← heq]
        · simpa using (List.pairwise_cons.mp hsorted).1 _ hm
      have hp100 : hd.priority = 100 := le_antisymm (mem_emittedReactions hhd).1 hge
      refine ⟨hd, ?_, (mem_emittedReactions hhd).2 hp100, hp100⟩
      unfold jsSlice0
      rw [if_neg (by omega)]
      have hn : settings.maxReactionsPerWorkout.toNat =
          (settings.maxReactionsPerWorkout.toNat - 1) + 1 := by omega
      rw [hn, List.take_succ_cons]
      exact List.mem_cons_self _ _
  · -- milestone part
    have hmemM : ({ id := newId, uid := uid, displayName := displayName,
                    photoURL := photoURL, type := MilestoneType.prWeight,
                    title := "🏆 New " ++ entry.exerciseName ++ " PR!",
                    description := "Hit " ++ toString bw ++ " " ++
                      unitStr settings.units ++ " on " ++ entry.exerciseName,
                    value := some bw, unit := some (unitStr settings.units),
                    exerciseName := some entry.exerciseName,
                    createdAt := now, celebrationCount := 0 } : Milestone)
        ∈ entryPRMilestones uid displayName photoURL settings.units currentLog.id
            allLogs newId now entry := by
      unfold entryPRMilestones
      rw [if_neg (by simp [hsk]), hbw, hbs]
      dsimp only
      apply List.mem_append_left
      unfold weightPRMilestoneBlock
      rw [hprev]
      dsimp only
      rw [if_pos hgt]
      exact List.mem_singleton_self _
    refine ⟨({ id := newId, uid := uid, displayName := displayName,
               photoURL := photoURL, type := MilestoneType.prWeight,
               title := "🏆 New " ++ entry.exerciseName ++ " PR!",
               description := "Hit " ++ toString bw ++ " " ++
                 unitStr settings.units ++ " on " ++ entry.exerciseName,
               value := some bw, unit := some (unitStr settings.units),
               exerciseName := some entry.exerciseName,
               createdAt := now, celebrationCount := 0 } : Milestone),
      ?_, rfl, rfl, rfl⟩
    unfold detectAndPublishMilestones
    apply List.mem_append_left
    apply List.mem_append_left
    apply List.mem_append_right
    exact List.mem_flatten.mpr ⟨_, List.mem_map_of_mem _ he, hmemM⟩

/-- Witness for claim C3 at the "Competition Squat" scenario inputs. -/
theorem claim_C3_witness :
    ∃ r ∈ evaluateReactions sqLog [sqLog, sqHistLog] exSettings,
      r.triggerType = TriggerType.prWeight ∧ r.priority = 100 :=
  (claim_C3_weightPR sqLog [sqLog, sqHistLog] exSettings "u" "Name" none [] "mid" "t"
    sqEntry 300 290
    (by norm_num [exSettings])
    (by decide)
    (by decide)
    (by norm_num [exSettings])
    (by simp [sqLog])
    rfl
    (by norm_num [sessionBestWeight, completedSetsOf, sqEntry, wt, List.filter])
    (by norm_num [getBestPreviousWeight, sqLog, sqHistLog, sqEntry, List.foldl]; decide)
    (by norm_num)).1

lemma mem_weightPRMilestoneBlock {m : Milestone} {uid dn pu units cid logs nid now exn bw}
    (h : m ∈ weightPRMilestoneBlock uid dn pu units cid logs nid now exn bw) :
    m.type = MilestoneType.prWeight := by
  unfold weightPRMilestoneBlock at h
  repeat first | split at h | split_ifs at h
  all_goals simp_all

lemma mem_e1rmPRMilestoneBlock {m : Milestone} {uid dn pu units cid logs nid now exn bs}
    (h : m ∈ e1rmPRMilestoneBlock uid dn pu units cid logs nid now exn bs) :
    m.type = MilestoneType.prE1rm := by
  unfold e1rmPRMilestoneBlock at h
  dsimp only at h
  repeat first | split at h | split_ifs at h
  all_goals simp_all

lemma mem_entryPRMilestones {m : Milestone} {uid dn pu units cid logs nid now entry}
    (h : m ∈ entryPRMilestones uid dn pu units cid logs nid now entry) :
    m.type = MilestoneType.prWeight ∨ m.type = MilestoneType.prE1rm := by
  unfold entryPRMilestones at h
  split_ifs at h with hs
  · simp at h
  · split at h
    · rcases List.mem_append.mp h with h | h
      · exact Or.inl (mem_weightPRMilestoneBlock h)
      · exact Or.inr (mem_e1rmPRMilestoneBlock h)
    · simp at h

lemma filter_streak_prPart (uid dn : String) (pu : Option String) (units : UnitType)
    (cid : String) (logs : List WorkoutLog) (nid now : String)
    (entries : List ExerciseLogEntry) :
    ((entries.map (entryPRMilestones uid dn pu units cid logs nid now)).flatten).filter
      (fun m => isStreakType m.type) = [] := by
  rw [List.filter_eq_nil_iff]
  intro m hm
  rcases List.mem_flatten.mp hm with ⟨l, hl, hml⟩
  rcases List.mem_map.mp hl with ⟨entry, _, rfl⟩
  rcases mem_entryPRMilestones hml with ht | ht <;> simp [ht, isStreakType]

/-- Claim C7: `detectAndPublishMilestones` publishes a streak milestone
exactly when the settings' current streak equals one of 3, 7, 14, 30, 50 —
one milestone of the matching type per run, none for any other value — with
no duplicate-detection query against the milestone store for streaks (the
streak output is invariant under the store state), unlike the program-week
milestone, which the store's existence check gates. -/
theorem claim_C7_streakMilestones
    (uid displayName : String) (photoURL : Option String)
    (currentLog : WorkoutLog) (allLogs : List WorkoutLog) (settings : UserSettings)
    (store store2 : List Milestone) (newId now : String) :
    ((detectAndPublishMilestones uid displayName photoURL currentLog allLogs settings
        store newId now).filter (fun m => isStreakType m.type)).map Milestone.type =
      (if settings.currentStreak = 3 then [MilestoneType.streak3]
       else if settings.currentStreak = 7 then [MilestoneType.streak7]
       else if settings.currentStreak = 14 then [MilestoneType.streak14]
       else if settings.currentStreak = 30 then [MilestoneType.streak30]
       else if settings.currentStreak = 50 then [MilestoneType.streak50]
       else []) ∧
    (detectAndPublishMilestones uid displayName photoURL currentLog allLogs settings
        store newId now).filter (fun m => isStreakType m.type) =
      (detectAndPublishMilestones uid displayName photoURL currentLog allLogs settings
        store2 newId now).filter (fun m => isStreakType m.type) ∧
    ((detectAndPublishMilestones "u" "Name" none (cwLogDay 4 "d4") cwLogs exSettings
        [] "mid" "t").filter
      (fun m => decide (m.type = MilestoneType.programWeek))).length = 1 ∧
    ((detectAndPublishMilestones "u" "Name" none (cwLogDay 4 "d4") cwLogs exSettings
        [cwExistingM] "mid" "t").filter
      (fun m => decide (m.type = MilestoneType.programWeek))).length = 0 := by
  refine ⟨?_, ?_, ?_, ?_⟩
  · unfold detectAndPublishMilestones
    dsimp only
    simp only [List.filter_append, filter_streak_prPart, streakTargets,
      List.map_cons, List.map_nil, List.flatten_cons, List.flatten_nil]
    split_ifs <;> simp_all [isStreakType]
  · unfold detectAndPublishMilestones
    dsimp only
    simp only [List.filter_append, filter_streak_prPart]
    congr 1
    split_ifs <;> simp [isStreakType]
  · decide
  · decide

lemma sessionBestWeight_isSome_of_bestSet {entry : ExerciseLogEntry} {bs : SetLog}
    (hbs : sessionBestSet entry = some bs) :
    ∃ bw, sessionBestWeight entry = some bw := by
  unfold sessionBestSet at hbs
  unfold sessionBestWeight
  cases hcs : completedSetsOf entry with
  | nil => rw [hcs] at hbs; simp at hbs
  | cons a t => exact ⟨_, rfl⟩

/-- Claim C8, counterexample to the claim as stated: with a squat training
max of 0 (JS-falsy) and a best squat set of weight −10 at RPE 8, the claim's
trigger condition holds — the weight is strictly below 65% of the (converted)
training max — yet no rpe-sandbagging reaction is emitted, because the
source's `if (tmLbs)` truthiness guard skips a zero training max. -/
theorem claim_C8_counterexample :
    c8Log.entries.map ExerciseLogEntry.skipped = [false] ∧
    c8Log.entries.map ExerciseLogEntry.exerciseName = ["squat"] ∧
    c8Log.entries.map sessionBestSet =
      [some ⟨1, some (-10), UnitType.lbs, some 5, some 8, true⟩] ∧
    includesLower "squat" "squat" = true ∧
    c8Settings.trainingMaxes.squat = 0 ∧
    c8Settings.units = UnitType.lbs ∧
    (8 : ℚ) ≥ 8 ∧
    (-10 : ℚ) < 65 / 100 * c8Settings.trainingMaxes.squat ∧
    (emittedReactions c8Log [c8Log] c8Settings).filter
      (fun r => decide (r.triggerType = TriggerType.rpeSandbagging)) = [] ∧
    (evaluateReactions c8Log [c8Log] c8Settings).filter
      (fun r => decide (r.triggerType = TriggerType.rpeSandbagging)) = [] := by
  refine ⟨rfl, rfl, ?_, by decide, rfl, rfl, by norm_num, ?_, ?_, ?_⟩
  · norm_num [c8Log, sessionBestSet, completedSetsOf, List.filter]
  · norm_num [c8Settings, exSettings]
  · norm_num [evaluateReactions, emittedReactions, entryReactions, weightPRBlock,
      e1rmPRBlock, repPRBlock, rpeDropBlock, sandbagBlock, grindBlock,
      sessionBestWeight, sessionBestSet, completedSetsOf, getBestPreviousWeight,
      getBestPreviousE1RM, getBestPreviousReps, getLastRPEForExercise,
      liftTrainingMax, c8Log, c8Settings, exSettings, wt, reps0, estimateE1RM,
      getMessage, getPhaseMessage, getProgramPhase, sortReactions, insertReaction,
      jsSlice0, List.filter, List.foldl, List.flatten, includesLower, isInfixB,
      isPrefixOfB, toLowerList, lowerChar]
    decide
  · norm_num [evaluateReactions, emittedReactions, entryReactions, weightPRBlock,
      e1rmPRBlock, repPRBlock, rpeDropBlock, sandbagBlock, grindBlock,
      sessionBestWeight, sessionBestSet, completedSetsOf, getBestPreviousWeight,
      getBestPreviousE1RM, getBestPreviousReps, getLastRPEForExercise,
      liftTrainingMax, c8Log, c8Settings, exSettings, wt, reps0, estimateE1RM,
      getMessage, getPhaseMessage, getProgramPhase, sortReactions, insertReaction,
      jsSlice0, List.filter, List.foldl, List.flatten, includesLower, isInfixB,
      isPrefixOfB, toLowerList, lowerChar]
    decide

/-- Claim C8 (amended): for every non-skipped entry whose best set has
RPE ≥ 8 and a non-null weight, where the exercise name contains squat, bench
or deadlift (checked in that order) selecting a positive training max, and
the best set's weight is strictly below 65% of that training max converted
to the settings' display unit, `evaluateReactions` emits (into its
pre-truncation reaction list) an rpe-sandbagging observation reaction with
priority 50.  A zero training max is JS-falsy and never fires. -/
theorem claim_C8_sandbagging
    (currentLog : WorkoutLog) (allLogs : List WorkoutLog) (settings : UserSettings)
    (entry : ExerciseLogEntry) (bs : SetLog) (rpe w tmLbs : ℚ)
    (he : entry ∈ currentLog.entries) (hsk : entry.skipped = false)
    (hbs : sessionBestSet entry = some bs)
    (hrpe : bs.rpe = some rpe) (hw : bs.weight = some w)
    (hrpe8 : rpe ≥ 8)
    (htm : liftTrainingMax entry.exerciseName settings.trainingMaxes = some tmLbs)
    (htmpos : 0 < tmLbs)
    (hbelow : w < 65 / 100 *
      (if settings.units = UnitType.lbs then tmLbs else tmLbs * LBS_TO_KG)) :
    ∃ r ∈ emittedReactions currentLog allLogs settings,
      r.triggerType = TriggerType.rpeSandbagging ∧
      r.category = ReactionCategory.OBSERVATION ∧ r.priority = 50 := by
  obtain ⟨bw, hbw⟩ := sessionBestWeight_isSome_of_bestSet hbs
  refine ⟨⟨TriggerType.rpeSandbagging,
    getMessage TriggerType.rpeSandbagging settings.personalityMode,
    ReactionCategory.OBSERVATION, 50⟩, ?_, rfl, rfl, rfl⟩
  unfold emittedReactions
  apply List.mem_append_left
  apply List.mem_append_left
  refine List.mem_flatten.mpr ⟨_, List.mem_map_of_mem _ he, ?_⟩
  unfold entryReactions
  rw [if_neg (by simp [hsk]), hbw, hbs]
  dsimp only
  apply List.mem_append_left
  apply List.mem_append_right
  unfold sandbagBlock
  rw [hrpe, hw]
  dsimp only
  rw [if_pos hrpe8, htm]
  dsimp only
  rw [if_pos htmpos.ne']
  have htmc : (0 : ℚ) <
      (if settings.units = UnitType.lbs then tmLbs else tmLbs * LBS_TO_KG) := by
    split_ifs
    · exact htmpos
    · exact mul_pos htmpos (by norm_num [LBS_TO_KG])
  have hcond : w / (if settings.units = UnitType.lbs then tmLbs
      else tmLbs * LBS_TO_KG) < 65 / 100 := by
    rw [div_lt_iff₀ htmc]
    linarith [hbelow]
  rw [if_pos ⟨hcond, hrpe8⟩]
  exact List.mem_singleton_self _

/-- Witness for claim C8's amended theorem: squat 100 × 5 at RPE 8 under a
315 lbs squat training max. -/
theorem claim_C8_witness :
    ∃ r ∈ emittedReactions c8bLog [c8bLog] exSettings,
      r.triggerType = TriggerType.rpeSandbagging ∧
      r.category = ReactionCategory.OBSERVATION ∧ r.priority = 50 :=
  claim_C8_sandbagging c8bLog [c8bLog] exSettings c8bEntry c8bSet 8 100 315
    (by simp [c8bLog])
    rfl
    rfl
    rfl
    rfl
    (by norm_num)
    (by simp [liftTrainingMax, c8bEntry, exSettings,
      (by decide : includesLower "squat" "squat" = true)])
    (by norm_num [exSettings])
    (by norm_num [exSettings])

/- Erasure lemmas: none of the engine's functions reads `weightUnit`, so every
computation is invariant under `eraseSet` / `eraseEntry` / `eraseLog`. -/

lemma eraseLog_id (L : WorkoutLog) : (eraseLog L).id = L.id := rfl
lemma eraseLog_weekNumber (L : WorkoutLog) : (eraseLog L).weekNumber = L.weekNumber := rfl
lemma eraseLog_entries (L : WorkoutLog) : (eraseLog L).entries = L.entries.map eraseEntry := rfl
lemma eraseEntry_skipped (e : ExerciseLogEntry) : (eraseEntry e).skipped = e.skipped := rfl
lemma eraseEntry_exerciseName (e : ExerciseLogEntry) :
    (eraseEntry e).exerciseName = e.exerciseName := rfl

lemma getBestPreviousWeight_erase (n cid : String) (logs : List WorkoutLog) :
    getBestPreviousWeight n cid (logs.map eraseLog) = getBestPreviousWeight n cid logs := by
  unfold getBestPreviousWeight
  rw [List.foldl_map]
  apply List.foldl_ext
  intro best log _
  simp only [eraseLog]
  split_ifs <;> try rfl
  rw [List.foldl_map]
  apply List.foldl_ext
  intro b entry _
  simp only [eraseEntry]
  split_ifs <;> try rfl
  rw [List.foldl_map]
  apply List.foldl_ext
  intro b2 s _
  rfl

lemma getBestPreviousE1RM_erase (n cid : String) (logs : List WorkoutLog) :
    getBestPreviousE1RM n cid (logs.map eraseLog) = getBestPreviousE1RM n cid logs := by
  unfold getBestPreviousE1RM
  rw [List.foldl_map]
  apply List.foldl_ext
  intro best log _
  simp only [eraseLog]
  split_ifs <;> try rfl
  rw [List.foldl_map]
  apply List.foldl_ext
  intro b entry _
  simp only [eraseEntry]
  split_ifs <;> try rfl
  rw [List.foldl_map]
  apply List.foldl_ext
  intro b2 s _
  rfl

lemma getBestPreviousReps_erase (n : String) (w : ℚ) (cid : String)
    (logs : List WorkoutLog) :
    getBestPreviousReps n w cid (logs.map eraseLog) = getBestPreviousReps n w cid logs := by
  unfold getBestPreviousReps
  rw [List.foldl_map]
  apply List.foldl_ext
  intro best log _
  simp only [eraseLog]
  split_ifs <;> try rfl
  rw [List.foldl_map]
  apply List.foldl_ext
  intro b entry _
  simp only [eraseEntry]
  split_ifs <;> try rfl
  rw [List.foldl_map]
  apply List.foldl_ext
  intro b2 s _
  rfl

lemma getLastRPEForExercise_erase (n : String) (w : ℚ) (cid : String)
    (logs : List WorkoutLog) :
    getLastRPEForExercise n w cid (logs.map eraseLog) =
      getLastRPEForExercise n w cid logs := by
  unfold getLastRPEForExercise
  rw [List.findSome?_map]
  congr 1
  funext log
  simp only [Function.comp, eraseLog]
  split_ifs <;> try rfl
  rw [List.findSome?_map]
  congr 1
  funext entry
  simp only [Function.comp, eraseEntry]
  split_ifs <;> try rfl
  rw [List.findSome?_map]
  congr 1

lemma completedSetsOf_erase (e : ExerciseLogEntry) :
    completedSetsOf (eraseEntry e) = (completedSetsOf e).map eraseSet := by
  unfold completedSetsOf
  simp only [eraseEntry]
  rw [List.filter_map]
  congr 1

lemma sessionBestWeight_erase (e : ExerciseLogEntry) :
    sessionBestWeight (eraseEntry e) = sessionBestWeight e := by
  unfold sessionBestWeight
  rw [completedSetsOf_erase]
  cases completedSetsOf e with
  | nil => rfl
  | cons s0 rest =>
    simp only [List.map_cons]
    congr 1
    rw [List.foldl_map]
    apply List.foldl_ext
    intro b s _
    rfl

lemma foldl_pick_erase (q : SetLog → SetLog → Prop) [∀ x y, Decidable (q x y)]
    (hq : ∀ x y, q (eraseSet x) (eraseSet y) ↔ q x y)
    (a : SetLog) (l : List SetLog) :
    (l.map eraseSet).foldl (fun best s => if q s best then s else best) (eraseSet a) =
      eraseSet (l.foldl (fun best s => if q s best then s else best) a) := by
  induction l generalizing a with
  | nil => rfl
  | cons b t ih =>
    simp only [List.map_cons, List.foldl_cons]
    have hstep : (if q (eraseSet b) (eraseSet a) then eraseSet b else eraseSet a) =
        eraseSet (if q b a then b else a) := by
      by_cases h : q b a
      · rw [if_pos ((hq b a).mpr h), if_pos h]
      · rw [if_neg (fun hc => h ((hq b a).mp hc)), if_neg h]
    rw [hstep]
    exact ih _

lemma sessionBestSet_erase (e : ExerciseLogEntry) :
    sessionBestSet (eraseEntry e) = (sessionBestSet e).map eraseSet := by
  unfold sessionBestSet
  rw [completedSetsOf_erase]
  cases completedSetsOf e with
  | nil => rfl
  | cons s0 rest =>
    simp only [List.map_cons, Option.map_some']
    congr 1
    exact foldl_pick_erase
      (fun s best => wt s > wt best ∨ (s.weight = best.weight ∧ reps0 s > reps0 best))
      (fun x y => Iff.rfl) s0 rest

lemma weightPRBlock_erase (m : PersonalityMode) (n cid : String)
    (logs : List WorkoutLog) (bw : ℚ) :
    weightPRBlock m n cid (logs.map eraseLog) bw = weightPRBlock m n cid logs bw := by
  unfold weightPRBlock
  rw [getBestPreviousWeight_erase]

lemma e1rmPRBlock_erase (m : PersonalityMode) (n cid : String)
    (logs : List WorkoutLog) (bs : SetLog) :
    e1rmPRBlock m n cid (logs.map eraseLog) (eraseSet bs) =
      e1rmPRBlock m n cid logs bs := by
  unfold e1rmPRBlock
  dsimp only [eraseSet]
  simp only [getBestPreviousE1RM_erase]

lemma repPRBlock_erase (m : PersonalityMode) (n cid : String)
    (logs : List WorkoutLog) (bs : SetLog) :
    repPRBlock m n cid (logs.map eraseLog) (eraseSet bs) =
      repPRBlock m n cid logs bs := by
  unfold repPRBlock
  dsimp only [eraseSet]
  simp only [getBestPreviousReps_erase]

lemma rpeDropBlock_erase (m : PersonalityMode) (n cid : String)
    (logs : List WorkoutLog) (bs : SetLog) :
    rpeDropBlock m n cid (logs.map eraseLog) (eraseSet bs) =
      rpeDropBlock m n cid logs bs := by
  unfold rpeDropBlock
  dsimp only [eraseSet]
  simp only [getLastRPEForExercise_erase]

lemma sandbagBlock_erase (m : PersonalityMode) (u : UnitType) (tms : TrainingMaxes)
    (n : String) (bs : SetLog) :
    sandbagBlock m u tms n (eraseSet bs) = sandbagBlock m u tms n bs := rfl

lemma grindBlock_erase (m : PersonalityMode) (bs : SetLog) :
    grindBlock m (eraseSet bs) = grindBlock m bs := rfl

lemma entryReactions_erase (settings : UserSettings) (cid : String)
    (logs : List WorkoutLog) (e : ExerciseLogEntry) :
    entryReactions settings cid (logs.map eraseLog) (eraseEntry e) =
      entryReactions settings cid logs e := by
  unfold entryReactions
  simp only [eraseEntry_skipped, eraseEntry_exerciseName, sessionBestWeight_erase,
    sessionBestSet_erase]
  by_cases hsk : e.skipped
  · simp [hsk]
  · simp only [hsk, if_false, Bool.false_eq_true]
    cases sessionBestWeight e with
    | none => rfl
    | some bw =>
      cases sessionBestSet e with
      | none => rfl
      | some bs =>
        simp only [Option.map_some']
        rw [weightPRBlock_erase, e1rmPRBlock_erase, repPRBlock_erase,
          rpeDropBlock_erase, sandbagBlock_erase, grindBlock_erase]

lemma emittedReactions_erase (L : WorkoutLog) (H : List WorkoutLog) (S : UserSettings) :
    emittedReactions (eraseLog L) (H.map eraseLog) S = emittedReactions L H S := by
  unfold emittedReactions
  simp only [eraseLog_id, eraseLog_weekNumber, eraseLog_entries]
  rw [List.map_map]
  have hcomp : entryReactions S L.id (H.map eraseLog) ∘ eraseEntry =
      entryReactions S L.id H :=
    funext fun e => entryReactions_erase S L.id H e
  rw [hcomp]
  simp only [List.filter_map, Function.comp_def, List.length_map, eraseEntry_skipped,
    eraseEntry_exerciseName]

lemma evaluateReactions_erase (L : WorkoutLog) (H : List WorkoutLog) (S : UserSettings) :
    evaluateReactions (eraseLog L) (H.map eraseLog) S = evaluateReactions L H S := by
  unfold evaluateReactions
  simp only [eraseLog_weekNumber, emittedReactions_erase]

lemma weightPRMilestoneBlock_erase (uid dn : String) (pu : Option String)
    (u : UnitType) (cid : String) (logs : List WorkoutLog) (nid now exn : String)
    (bw : ℚ) :
    weightPRMilestoneBlock uid dn pu u cid (logs.map eraseLog) nid now exn bw =
      weightPRMilestoneBlock uid dn pu u cid logs nid now exn bw := by
  unfold weightPRMilestoneBlock
  rw [getBestPreviousWeight_erase]

lemma e1rmPRMilestoneBlock_erase (uid dn : String) (pu : Option String)
    (u : UnitType) (cid : String) (logs : List WorkoutLog) (nid now exn : String)
    (bs : SetLog) :
    e1rmPRMilestoneBlock uid dn pu u cid (logs.map eraseLog) nid now exn (eraseSet bs) =
      e1rmPRMilestoneBlock uid dn pu u cid logs nid now exn bs := by
  unfold e1rmPRMilestoneBlock
  dsimp only [eraseSet]
  simp only [getBestPreviousE1RM_erase]

lemma entryPRMilestones_erase (uid dn : String) (pu : Option String) (u : UnitType)
    (cid : String) (logs : List WorkoutLog) (nid now : String) (e : ExerciseLogEntry) :
    entryPRMilestones uid dn pu u cid (logs.map eraseLog) nid now (eraseEntry e) =
      entryPRMilestones uid dn pu u cid logs nid now e := by
  unfold entryPRMilestones
  simp only [eraseEntry_skipped, eraseEntry_exerciseName, sessionBestWeight_erase,
    sessionBestSet_erase]
  by_cases hsk : e.skipped
  · simp [hsk]
  · simp only [hsk, if_false, Bool.false_eq_true]
    cases sessionBestWeight e with
    | none => rfl
    | some bw =>
      cases sessionBestSet e with
      | none => rfl
      | some bs =>
        simp only [Option.map_some']
        rw [weightPRMilestoneBlock_erase, e1rmPRMilestoneBlock_erase]

lemma weekCompleteDayCount_erase (L : WorkoutLog) (H : List WorkoutLog) :
    weekCompleteDayCount (eraseLog L) (H.map eraseLog) = weekCompleteDayCount L H := by
  unfold weekCompleteDayCount
  simp only [eraseLog_weekNumber]
  rw [List.filter_map]
  have hpred : (fun l : WorkoutLog =>
      decide (l.weekNumber = L.weekNumber) && l.completedAt.isSome) ∘ eraseLog =
      fun l : WorkoutLog =>
        decide (l.weekNumber = L.weekNumber) && l.completedAt.isSome :=
    funext fun l => rfl
  rw [hpred, List.map_map]
  have hday : (fun l : WorkoutLog => l.dayNumber) ∘ eraseLog =
      fun l : WorkoutLog => l.dayNumber :=
    funext fun l => rfl
  rw [hday]

lemma detectAndPublishMilestones_erase (uid dn : String) (pu : Option String)
    (L : WorkoutLog) (H : List WorkoutLog) (S : UserSettings)
    (store : List Milestone) (nid now : String) :
    detectAndPublishMilestones uid dn pu (eraseLog L) (H.map eraseLog) S store nid now =
      detectAndPublishMilestones uid dn pu L H S store nid now := by
  unfold detectAndPublishMilestones
  simp only [eraseLog_id, eraseLog_weekNumber, eraseLog_entries, List.length_map,
    weekCompleteDayCount_erase]
  rw [List.map_map]
  have hcomp : entryPRMilestones uid dn pu S.units L.id (H.map eraseLog) nid now ∘
      eraseEntry = entryPRMilestones uid dn pu S.units L.id H nid now :=
    funext fun e => entryPRMilestones_erase uid dn pu S.units L.id H nid now e
  rw [hcomp]

/-- Claim C10: all PR and history comparisons read `SetLog.weight` as a raw
number and never read `weightUnit` — any two inputs that differ only in the
`weightUnit` fields of their sets (i.e. have equal unit erasures) produce
identical reactions from `evaluateReactions` and identical milestones from
`detectAndPublishMilestones`; a historical kg set is hence compared against a
current lbs set without conversion. -/
theorem claim_C10_unitBlind
    (L1 L2 : WorkoutLog) (H1 H2 : List WorkoutLog) (S : UserSettings)
    (uid dn : String) (pu : Option String) (store : List Milestone) (nid now : String)
    (hL : eraseLog L1 = eraseLog L2) (hH : H1.map eraseLog = H2.map eraseLog) :
    evaluateReactions L1 H1 S = evaluateReactions L2 H2 S ∧
    detectAndPublishMilestones uid dn pu L1 H1 S store nid now =
      detectAndPublishMilestones uid dn pu L2 H2 S store nid now := by
  constructor
  · calc evaluateReactions L1 H1 S
        = evaluateReactions (eraseLog L1) (H1.map eraseLog) S :=
          (evaluateReactions_erase L1 H1 S).symm
      _ = evaluateReactions (eraseLog L2) (H2.map eraseLog) S := by rw [hL, hH]
      _ = evaluateReactions L2 H2 S := evaluateReactions_erase L2 H2 S
  · calc detectAndPublishMilestones uid dn pu L1 H1 S store nid now
        = detectAndPublishMilestones uid dn pu (eraseLog L1) (H1.map eraseLog) S
            store nid now :=
          (detectAndPublishMilestones_erase uid dn pu L1 H1 S store nid now).symm
      _ = detectAndPublishMilestones uid dn pu (eraseLog L2) (H2.map eraseLog) S
            store nid now := by rw [hL, hH]
      _ = detectAndPublishMilestones uid dn pu L2 H2 S store nid now :=
          detectAndPublishMilestones_erase uid dn pu L2 H2 S store nid now

/-- Witness for claim C10: the C3 scenario logged in kg versus lbs (only the
`weightUnit` fields differ) produces identical reactions and milestones. -/
theorem claim_C10_witness :
    evaluateReactions sqLogKg [sqLogKg, sqHistLogKg] exSettings =
      evaluateReactions sqLog [sqLog, sqHistLog] exSettings ∧
    detectAndPublishMilestones "u" "Name" none sqLogKg [sqLogKg, sqHistLogKg]
        exSettings [] "mid" "t" =
      detectAndPublishMilestones "u" "Name" none sqLog [sqLog, sqHistLog]
        exSettings [] "mid" "t" :=
  claim_C10_unitBlind sqLogKg sqLog [sqLogKg, sqHistLogKg] [sqLog, sqHistLog]
    exSettings "u" "Name" none [] "mid" "t" rfl rfl
